import Mathlib

/- Verification of the NTCIP-1202 / SDLC traffic-cabinet protocol layer of
   vtc.hpp (HILS component): cabinet variables, the frame element codec, the
   declarative frame layouts, the channel-compatibility packer, the dispatcher
   and the loadswitch state function, shallowly embedded in Lean. -/

set_option maxRecDepth 8000
set_option maxHeartbeats 2000000

namespace Vtc

/-- Identity of a cabinet variable. In the source a variable is a distinct
C++ struct type (its domain namespace, its struct name, and its compile-time
index); here the struct name is represented by a numeric tag unique within
its domain. Domains: 1 = mmu, 2 = io::input, 3 = io::output, 5 = broadcast. -/
structure VarId where
  domain : Nat
  tag : Nat
  index : Nat
deriving DecidableEq, Repr

/-- Pointwise functional update, used for the variable table, the response
byte buffer and bitsets alike. -/
def fupd {α β : Type} [DecidableEq α] (f : α → β) (a : α) (x : β) : α → β :=
  fun y => if y = a then x else f y

/-- The cabinet variable table: every variable identity maps to its current
value. Bit-valued variables hold 0 or 1; byte and word variables hold their
unsigned value. -/
def State : Type := VarId → Nat

namespace mmu

/-- The compatibility status of two MMU channels; the source encodes the
index as left channel times 256 plus right channel ((Ix << 8) | Iy). -/
def ChannelCompatibilityStatus (i j : Nat) : VarId := ⟨1, 1, i * 256 + j⟩

def ChannelGreenWalkDriver (i : Nat) : VarId := ⟨1, 2, i⟩

def ChannelYellowPedClearDriver (i : Nat) : VarId := ⟨1, 3, i⟩

def ChannelRedDoNotWalkDriver (i : Nat) : VarId := ⟨1, 4, i⟩

def LoadSwitchFlash : VarId := ⟨1, 5, 0⟩

def ChannelGreenWalkStatus (i : Nat) : VarId := ⟨1, 6, i⟩

def ChannelYellowPedClearStatus (i : Nat) : VarId := ⟨1, 7, i⟩

def ChannelRedDoNotWalkStatus (i : Nat) : VarId := ⟨1, 8, i⟩

def ControllerVoltMonitor : VarId := ⟨1, 9, 0⟩

def _24VoltMonitor_I : VarId := ⟨1, 10, 0⟩

def _24VoltMonitor_II : VarId := ⟨1, 11, 0⟩

def _24VoltMonitorInhibit : VarId := ⟨1, 12, 0⟩

def Reset : VarId := ⟨1, 13, 0⟩

def RedEnable : VarId := ⟨1, 14, 0⟩

def Conflict : VarId := ⟨1, 15, 0⟩

def RedFailure : VarId := ⟨1, 16, 0⟩

def DiagnosticFailure : VarId := ⟨1, 17, 0⟩

def MinimumClearanceFailure : VarId := ⟨1, 18, 0⟩

def Port1TimeoutFailure : VarId := ⟨1, 19, 0⟩

def FailedAndOutputRelayTransferred : VarId := ⟨1, 20, 0⟩

def FailedAndImmediateResponse : VarId := ⟨1, 21, 0⟩

def LocalFlashStatus : VarId := ⟨1, 22, 0⟩

def StartupFlashCall : VarId := ⟨1, 23, 0⟩

def FYAFlashRateFailure : VarId := ⟨1, 24, 0⟩

def MinimumYellowChangeDisable (i : Nat) : VarId := ⟨1, 25, i⟩

def MinimumFlashTimeBit_0 : VarId := ⟨1, 26, 0⟩

def MinimumFlashTimeBit_1 : VarId := ⟨1, 27, 0⟩

def MinimumFlashTimeBit_2 : VarId := ⟨1, 28, 0⟩

def MinimumFlashTimeBit_3 : VarId := ⟨1, 29, 0⟩

def _24VoltLatch : VarId := ⟨1, 30, 0⟩

def CVMFaultMonitorLatch : VarId := ⟨1, 31, 0⟩

end mmu

namespace broadcast

def CuReportedMonth : VarId := ⟨5, 1, 0⟩

def CuReportedDay : VarId := ⟨5, 2, 0⟩

def CuReportedYear : VarId := ⟨5, 3, 0⟩

def CuReportedHour : VarId := ⟨5, 4, 0⟩

def CuReportedMinutes : VarId := ⟨5, 5, 0⟩

def CuReportedSeconds : VarId := ⟨5, 6, 0⟩

def CuReportedTenthsOfSeconds : VarId := ⟨5, 7, 0⟩

def CuReportedTfBiuPresence (i : Nat) : VarId := ⟨5, 8, i⟩

def CuReportedDrBiuPresence (i : Nat) : VarId := ⟨5, 9, i⟩

end broadcast

namespace ioIn

def PreemptInput (i : Nat) : VarId := ⟨2, 1, i⟩

def UnitTestInputA : VarId := ⟨2, 2, 0⟩

def UnitTestInputB : VarId := ⟨2, 3, 0⟩

def UnitTestInputC : VarId := ⟨2, 4, 0⟩

def UnitAutomaticFlash : VarId := ⟨2, 5, 0⟩

def UnitDimming : VarId := ⟨2, 6, 0⟩

def UnitManualControlEnable : VarId := ⟨2, 7, 0⟩

def UnitIntervalAdvance : VarId := ⟨2, 8, 0⟩

def UnitExternalMinRecall : VarId := ⟨2, 9, 0⟩

def UnitExternalStart : VarId := ⟨2, 10, 0⟩

def UnitTBCOnline : VarId := ⟨2, 11, 0⟩

def RingStopTiming (i : Nat) : VarId := ⟨2, 12, i⟩

def RingMax2Selection (i : Nat) : VarId := ⟨2, 13, i⟩

def RingForceOff (i : Nat) : VarId := ⟨2, 14, i⟩

def UnitCallToNonActuated_1 : VarId := ⟨2, 15, 0⟩

def UnitCallToNonActuated_2 : VarId := ⟨2, 16, 0⟩

def UnitWalkRestModifier : VarId := ⟨2, 17, 0⟩

def PedDetCall (i : Nat) : VarId := ⟨2, 18, i⟩

def RingInhibitMaxTermination (i : Nat) : VarId := ⟨2, 19, i⟩

def UnitLocalFlash : VarId := ⟨2, 20, 0⟩

def UnitCMUMMUFlashStatus : VarId := ⟨2, 21, 0⟩

def UnitAlarm_1 : VarId := ⟨2, 22, 0⟩

def UnitAlarm_2 : VarId := ⟨2, 23, 0⟩

def CoordFreeSwitch : VarId := ⟨2, 24, 0⟩

def RingRedRest (i : Nat) : VarId := ⟨2, 25, i⟩

def RingOmitRedClearance (i : Nat) : VarId := ⟨2, 26, i⟩

def RingPedestrianRecycle (i : Nat) : VarId := ⟨2, 27, i⟩

def UnitAlternateSequenceA : VarId := ⟨2, 28, 0⟩

def UnitAlternateSequenceB : VarId := ⟨2, 29, 0⟩

def UnitAlternateSequenceC : VarId := ⟨2, 30, 0⟩

def UnitAlternateSequenceD : VarId := ⟨2, 31, 0⟩

def PhasePhaseOmit (i : Nat) : VarId := ⟨2, 32, i⟩

def PhasePedOmit (i : Nat) : VarId := ⟨2, 33, i⟩

def UnitTimingPlanA : VarId := ⟨2, 34, 0⟩

def UnitTimingPlanB : VarId := ⟨2, 35, 0⟩

def UnitTimingPlanC : VarId := ⟨2, 36, 0⟩

def UnitTimingPlanD : VarId := ⟨2, 37, 0⟩

def UnitOffset_1 : VarId := ⟨2, 38, 0⟩

def UnitOffset_2 : VarId := ⟨2, 39, 0⟩

def UnitOffset_3 : VarId := ⟨2, 40, 0⟩

def UnitSystemAddressBit_0 : VarId := ⟨2, 41, 0⟩

def UnitSystemAddressBit_1 : VarId := ⟨2, 42, 0⟩

def UnitSystemAddressBit_2 : VarId := ⟨2, 43, 0⟩

def UnitSystemAddressBit_3 : VarId := ⟨2, 44, 0⟩

def UnitSystemAddressBit_4 : VarId := ⟨2, 45, 0⟩

def VehicleDetCall (i : Nat) : VarId := ⟨2, 46, i⟩

end ioIn

namespace ioOut

def ChannelGreenWalkDriver (i : Nat) : VarId := ⟨3, 1, i⟩

def ChannelYellowPedClearDriver (i : Nat) : VarId := ⟨3, 2, i⟩

def ChannelRedDoNotWalkDriver (i : Nat) : VarId := ⟨3, 3, i⟩

def UnitTBCAux_1 : VarId := ⟨3, 4, 0⟩

def UnitTBCAux_2 : VarId := ⟨3, 5, 0⟩

def UnitTBCAux_3 : VarId := ⟨3, 6, 0⟩

def PreemptStatus (i : Nat) : VarId := ⟨3, 7, i⟩

def UnitFreeCoordStatus : VarId := ⟨3, 8, 0⟩

def UnitTimingPlanA : VarId := ⟨3, 9, 0⟩

def UnitTimingPlanB : VarId := ⟨3, 10, 0⟩

def UnitTimingPlanC : VarId := ⟨3, 11, 0⟩

def UnitTimingPlanD : VarId := ⟨3, 12, 0⟩

def UnitOffset_1 : VarId := ⟨3, 13, 0⟩

def UnitOffset_2 : VarId := ⟨3, 14, 0⟩

def UnitOffset_3 : VarId := ⟨3, 15, 0⟩

def UnitAutomaticFlash : VarId := ⟨3, 16, 0⟩

def SpecialFunction (i : Nat) : VarId := ⟨3, 17, i⟩

def StatusBitA_Ring_1 : VarId := ⟨3, 18, 0⟩

def StatusBitB_Ring_1 : VarId := ⟨3, 19, 0⟩

def StatusBitC_Ring_1 : VarId := ⟨3, 20, 0⟩

def StatusBitA_Ring_2 : VarId := ⟨3, 21, 0⟩

def StatusBitB_Ring_2 : VarId := ⟨3, 22, 0⟩

def StatusBitC_Ring_2 : VarId := ⟨3, 23, 0⟩

def PhaseOn (i : Nat) : VarId := ⟨3, 24, i⟩

def PhaseNext (i : Nat) : VarId := ⟨3, 25, i⟩

def PhaseCheck (i : Nat) : VarId := ⟨3, 26, i⟩

def DetectorReset (i : Nat) : VarId := ⟨3, 27, i⟩

end ioOut

namespace serial

/-- A frame element binds one cabinet variable to one absolute bit position
(FrameBit) or byte position (FrameByte, FrameWord low byte) of the frame. -/
inductive Element : Type
  | bit (v : VarId) (pos : Nat)
  | byte (v : VarId) (pos : Nat)
  | word (v : VarId) (pos : Nat)
deriving DecidableEq, Repr

/-- The variable an element is bound to. -/
def Element.var : Element → VarId
  | .bit v _ => v
  | .byte v _ => v
  | .word v _ => v

/-- FrameBit::operator<<, FrameByte::operator<< and FrameWord::operator<<:
extract the element's bit/byte/word from the inbound byte buffer and store it
into the element's variable. A bit element reads bit pos % 8 of byte pos / 8;
a word element composes buffer byte pos as low byte and pos + 1 as high byte. -/
def Element.decode (data : List Nat) (s : State) : Element → State
  | .bit v pos =>
      fupd s v (if data.getD (pos / 8) 0 &&& (1 <<< (pos % 8)) ≠ 0 then 1 else 0)
  | .byte v pos => fupd s v (data.getD pos 0)
  | .word v pos =>
      fupd s v ((data.getD pos 0 &&& 0xFF) ||| (data.getD (pos + 1) 0 <<< 8))

/-- FrameBit::operator>>, FrameByte::operator>> and FrameWord::operator>>:
read the element's variable and write its bit/byte/word into the outbound
buffer (modelled as a function from byte position to byte value). A bit
element ORs the bit into byte pos / 8 at bit pos % 8. -/
def Element.encode (s : State) (buf : Nat → Nat) : Element → (Nat → Nat)
  | .bit v pos =>
      fupd buf (pos / 8)
        (buf (pos / 8) ||| ((if s v = 1 then 1 else 0) <<< (pos % 8)))
  | .byte v pos => fupd buf pos (s v)
  | .word v pos => fupd (fupd buf pos (s v &&& 0xFF)) (pos + 1) (s v >>> 8)

/-- Whether every buffer index the element's decode reads lies below n, the
length of the supplied byte slice. -/
def Element.inBounds (n : Nat) : Element → Bool
  | .bit _ pos => pos / 8 < n
  | .byte _ pos => pos < n
  | .word _ pos => pos + 1 < n

/-- A frame definition: station address, frame-type identifier, declared
total byte size, and the ordered list of frame elements. The direction tag
of the source is implicit in how a frame is used (decode for received
command frames, encode for generated response frames). -/
structure FrameDef where
  address : Nat
  id : Nat
  bytesize : Nat
  elements : List Element
deriving DecidableEq, Repr

/-- Frame::operator<< / Assign: apply every element's decode in declaration
order to the shared variable table. -/
def decodeFrame (f : FrameDef) (data : List Nat) (s : State) : State :=
  f.elements.foldl (fun s e => e.decode data s) s

/-- The header writes of Frame::operator>>: a zero-filled buffer with
byte 0 = address, byte 1 = the fixed SDLC control byte 0x83, byte 2 = id. -/
def frameHeader (f : FrameDef) : Nat → Nat :=
  fupd (fupd (fupd (fun _ => 0) 0 f.address) 1 0x83) 2 f.id

/-- Frame::operator>> / Generate: zero-fill, write the header, then apply
every element's encode in declaration order. -/
def encodeFrameBuf (f : FrameDef) (s : State) : Nat → Nat :=
  f.elements.foldl (fun b e => e.encode s b) (frameHeader f)

/-- The response span returned by the dispatcher: the first bytesize bytes
of the shared output buffer after encoding. -/
def encodeFrame (f : FrameDef) (s : State) : List Nat :=
  (List.range f.bytesize).map (encodeFrameBuf f s)

/-- Frame Type 0: MMU LoadSwitchDriversFrame, a 16-byte received command
frame. Each channel driver has two bits (the obsolete dimming encoding);
the same variable backs both the positive and negative bit. -/
def LoadSwitchDriversFrame : FrameDef :=
  ⟨0x10, 0x00, 16,
   [.bit (mmu.ChannelGreenWalkDriver 0x01) 0x18,
    .bit (mmu.ChannelGreenWalkDriver 0x01) 0x19,
    .bit (mmu.ChannelGreenWalkDriver 0x02) 0x1A,
    .bit (mmu.ChannelGreenWalkDriver 0x02) 0x1B,
    .bit (mmu.ChannelGreenWalkDriver 0x03) 0x1C,
    .bit (mmu.ChannelGreenWalkDriver 0x03) 0x1D,
    .bit (mmu.ChannelGreenWalkDriver 0x04) 0x1E,
    .bit (mmu.ChannelGreenWalkDriver 0x04) 0x1F,
    .bit (mmu.ChannelGreenWalkDriver 0x05) 0x20,
    .bit (mmu.ChannelGreenWalkDriver 0x05) 0x21,
    .bit (mmu.ChannelGreenWalkDriver 0x06) 0x22,
    .bit (mmu.ChannelGreenWalkDriver 0x06) 0x23,
    .bit (mmu.ChannelGreenWalkDriver 0x07) 0x24,
    .bit (mmu.ChannelGreenWalkDriver 0x07) 0x25,
    .bit (mmu.ChannelGreenWalkDriver 0x08) 0x26,
    .bit (mmu.ChannelGreenWalkDriver 0x08) 0x27,
    .bit (mmu.ChannelGreenWalkDriver 0x09) 0x28,
    .bit (mmu.ChannelGreenWalkDriver 0x09) 0x29,
    .bit (mmu.ChannelGreenWalkDriver 0x0A) 0x2A,
    .bit (mmu.ChannelGreenWalkDriver 0x0A) 0x2B,
    .bit (mmu.ChannelGreenWalkDriver 0x0B) 0x2C,
    .bit (mmu.ChannelGreenWalkDriver 0x0B) 0x2D,
    .bit (mmu.ChannelGreenWalkDriver 0x0C) 0x2E,
    .bit (mmu.ChannelGreenWalkDriver 0x0C) 0x2F,
    .bit (mmu.ChannelGreenWalkDriver 0x0D) 0x30,
    .bit (mmu.ChannelGreenWalkDriver 0x0D) 0x31,
    .bit (mmu.ChannelGreenWalkDriver 0x0E) 0x32,
    .bit (mmu.ChannelGreenWalkDriver 0x0E) 0x33,
    .bit (mmu.ChannelGreenWalkDriver 0x0F) 0x34,
    .bit (mmu.ChannelGreenWalkDriver 0x0F) 0x35,
    .bit (mmu.ChannelGreenWalkDriver 0x10) 0x36,
    .bit (mmu.ChannelGreenWalkDriver 0x10) 0x37] ++
   [.bit (mmu.ChannelYellowPedClearDriver 0x01) 0x38,
    .bit (mmu.ChannelYellowPedClearDriver 0x01) 0x39,
    .bit (mmu.ChannelYellowPedClearDriver 0x02) 0x3A,
    .bit (mmu.ChannelYellowPedClearDriver 0x02) 0x3B,
    .bit (mmu.ChannelYellowPedClearDriver 0x03) 0x3C,
    .bit (mmu.ChannelYellowPedClearDriver 0x03) 0x3D,
    .bit (mmu.ChannelYellowPedClearDriver 0x04) 0x3E,
    .bit (mmu.ChannelYellowPedClearDriver 0x04) 0x3F,
    .bit (mmu.ChannelYellowPedClearDriver 0x05) 0x40,
    .bit (mmu.ChannelYellowPedClearDriver 0x05) 0x41,
    .bit (mmu.ChannelYellowPedClearDriver 0x06) 0x42,
    .bit (mmu.ChannelYellowPedClearDriver 0x06) 0x43,
    .bit (mmu.ChannelYellowPedClearDriver 0x07) 0x44,
    .bit (mmu.ChannelYellowPedClearDriver 0x07) 0x45,
    .bit (mmu.ChannelYellowPedClearDriver 0x08) 0x46,
    .bit (mmu.ChannelYellowPedClearDriver 0x08) 0x47,
    .bit (mmu.ChannelYellowPedClearDriver 0x09) 0x48,
    .bit (mmu.ChannelYellowPedClearDriver 0x09) 0x49,
    .bit (mmu.ChannelYellowPedClearDriver 0x0A) 0x4A,
    .bit (mmu.ChannelYellowPedClearDriver 0x0A) 0x4B,
    .bit (mmu.ChannelYellowPedClearDriver 0x0B) 0x4C,
    .bit (mmu.ChannelYellowPedClearDriver 0x0B) 0x4D,
    .bit (mmu.ChannelYellowPedClearDriver 0x0C) 0x4E,
    .bit (mmu.ChannelYellowPedClearDriver 0x0C) 0x4F,
    .bit (mmu.ChannelYellowPedClearDriver 0x0D) 0x50,
    .bit (mmu.ChannelYellowPedClearDriver 0x0D) 0x51,
    .bit (mmu.ChannelYellowPedClearDriver 0x0E) 0x52,
    .bit (mmu.ChannelYellowPedClearDriver 0x0E) 0x53,
    .bit (mmu.ChannelYellowPedClearDriver 0x0F) 0x54,
    .bit (mmu.ChannelYellowPedClearDriver 0x0F) 0x55,
    .bit (mmu.ChannelYellowPedClearDriver 0x10) 0x56,
    .bit (mmu.ChannelYellowPedClearDriver 0x10) 0x57] ++
   [.bit (mmu.ChannelRedDoNotWalkDriver 0x01) 0x58,
    .bit (mmu.ChannelRedDoNotWalkDriver 0x01) 0x59,
    .bit (mmu.ChannelRedDoNotWalkDriver 0x02) 0x5A,
    .bit (mmu.ChannelRedDoNotWalkDriver 0x02) 0x5B,
    .bit (mmu.ChannelRedDoNotWalkDriver 0x03) 0x5C,
    .bit (mmu.ChannelRedDoNotWalkDriver 0x03) 0x5D,
    .bit (mmu.ChannelRedDoNotWalkDriver 0x04) 0x5E,
    .bit (mmu.ChannelRedDoNotWalkDriver 0x04) 0x5F,
    .bit (mmu.ChannelRedDoNotWalkDriver 0x05) 0x60,
    .bit (mmu.ChannelRedDoNotWalkDriver 0x05) 0x61,
    .bit (mmu.ChannelRedDoNotWalkDriver 0x06) 0x62,
    .bit (mmu.ChannelRedDoNotWalkDriver 0x06) 0x63,
    .bit (mmu.ChannelRedDoNotWalkDriver 0x07) 0x64,
    .bit (mmu.ChannelRedDoNotWalkDriver 0x07) 0x65,
    .bit (mmu.ChannelRedDoNotWalkDriver 0x08) 0x66,
    .bit (mmu.ChannelRedDoNotWalkDriver 0x08) 0x67,
    .bit (mmu.ChannelRedDoNotWalkDriver 0x09) 0x68,
    .bit (mmu.ChannelRedDoNotWalkDriver 0x09) 0x69,
    .bit (mmu.ChannelRedDoNotWalkDriver 0x0A) 0x6A,
    .bit (mmu.ChannelRedDoNotWalkDriver 0x0A) 0x6B,
    .bit (mmu.ChannelRedDoNotWalkDriver 0x0B) 0x6C,
    .bit (mmu.ChannelRedDoNotWalkDriver 0x0B) 0x6D,
    .bit (mmu.ChannelRedDoNotWalkDriver 0x0C) 0x6E,
    .bit (mmu.ChannelRedDoNotWalkDriver 0x0C) 0x6F,
    .bit (mmu.ChannelRedDoNotWalkDriver 0x0D) 0x70,
    .bit (mmu.ChannelRedDoNotWalkDriver 0x0D) 0x71,
    .bit (mmu.ChannelRedDoNotWalkDriver 0x0E) 0x72,
    .bit (mmu.ChannelRedDoNotWalkDriver 0x0E) 0x73,
    .bit (mmu.ChannelRedDoNotWalkDriver 0x0F) 0x74,
    .bit (mmu.ChannelRedDoNotWalkDriver 0x0F) 0x75,
    .bit (mmu.ChannelRedDoNotWalkDriver 0x10) 0x76,
    .bit (mmu.ChannelRedDoNotWalkDriver 0x10) 0x77,
    .bit mmu.LoadSwitchFlash 0x7F]⟩

/-- Frame Type 1: MMU InputStatusRequestFrame, a 3-byte received command
frame with no payload elements. -/
def MMUInputStatusRequestFrame : FrameDef := ⟨0x10, 0x01, 3, []⟩

/-- Frame Type 3: MMUProgrammingRequestFrame, a 3-byte received command
frame with no payload elements. -/
def MMUProgrammingRequestFrame : FrameDef := ⟨0x10, 0x03, 3, []⟩

/-- Frame Type 9: DateTimeBroadcastFrame, a 12-byte received broadcast
command frame: date/time bytes 3..9 and BIU presence bits in bytes 10/11. -/
def DateTimeBroadcastFrame : FrameDef :=
  ⟨0xFF, 0x09, 12,
   [.byte broadcast.CuReportedMonth 3,
    .byte broadcast.CuReportedDay 4,
    .byte broadcast.CuReportedYear 5,
    .byte broadcast.CuReportedHour 6,
    .byte broadcast.CuReportedMinutes 7,
    .byte broadcast.CuReportedSeconds 8,
    .byte broadcast.CuReportedTenthsOfSeconds 9,
    .bit (broadcast.CuReportedTfBiuPresence 0x01) 0x50,
    .bit (broadcast.CuReportedTfBiuPresence 0x02) 0x51,
    .bit (broadcast.CuReportedTfBiuPresence 0x03) 0x52,
    .bit (broadcast.CuReportedTfBiuPresence 0x04) 0x53,
    .bit (broadcast.CuReportedTfBiuPresence 0x05) 0x54,
    .bit (broadcast.CuReportedTfBiuPresence 0x06) 0x55,
    .bit (broadcast.CuReportedTfBiuPresence 0x07) 0x56,
    .bit (broadcast.CuReportedTfBiuPresence 0x08) 0x57,
    .bit (broadcast.CuReportedDrBiuPresence 0x01) 0x58,
    .bit (broadcast.CuReportedDrBiuPresence 0x02) 0x59,
    .bit (broadcast.CuReportedDrBiuPresence 0x03) 0x5A,
    .bit (broadcast.CuReportedDrBiuPresence 0x04) 0x5B,
    .bit (broadcast.CuReportedDrBiuPresence 0x05) 0x5C,
    .bit (broadcast.CuReportedDrBiuPresence 0x06) 0x5D,
    .bit (broadcast.CuReportedDrBiuPresence 0x07) 0x5E,
    .bit (broadcast.CuReportedDrBiuPresence 0x08) 0x5F]⟩

/-- Frame Type 10: TfBiu01_OutputsInputsRequestFrame, an 11-byte received
command frame carrying loadswitch drivers for channels 1..8 (two dimming
bits per driver, both backed by the same variable). -/
def TfBiu01_OutputsInputsRequestFrame : FrameDef :=
  ⟨0x00, 0x0A, 11,
   [.bit (ioOut.ChannelRedDoNotWalkDriver 1) 0x18,
    .bit (ioOut.ChannelRedDoNotWalkDriver 1) 0x19,
    .bit (ioOut.ChannelYellowPedClearDriver 1) 0x1A,
    .bit (ioOut.ChannelYellowPedClearDriver 1) 0x1B,
    .bit (ioOut.ChannelGreenWalkDriver 1) 0x1C,
    .bit (ioOut.ChannelGreenWalkDriver 1) 0x1D,
    .bit (ioOut.ChannelRedDoNotWalkDriver 2) 0x1E,
    .bit (ioOut.ChannelRedDoNotWalkDriver 2) 0x1F,
    .bit (ioOut.ChannelYellowPedClearDriver 2) 0x20,
    .bit (ioOut.ChannelYellowPedClearDriver 2) 0x21,
    .bit (ioOut.ChannelGreenWalkDriver 2) 0x22,
    .bit (ioOut.ChannelGreenWalkDriver 2) 0x23,
    .bit (ioOut.ChannelRedDoNotWalkDriver 3) 0x24,
    .bit (ioOut.ChannelRedDoNotWalkDriver 3) 0x25,
    .bit (ioOut.ChannelYellowPedClearDriver 3) 0x26,
    .bit (ioOut.ChannelYellowPedClearDriver 3) 0x27,
    .bit (ioOut.ChannelGreenWalkDriver 3) 0x28,
    .bit (ioOut.ChannelGreenWalkDriver 3) 0x29,
    .bit (ioOut.ChannelRedDoNotWalkDriver 4) 0x2A,
    .bit (ioOut.ChannelRedDoNotWalkDriver 4) 0x2B,
    .bit (ioOut.ChannelYellowPedClearDriver 4) 0x2C,
    .bit (ioOut.ChannelYellowPedClearDriver 4) 0x2D,
    .bit (ioOut.ChannelGreenWalkDriver 4) 0x2E,
    .bit (ioOut.ChannelGreenWalkDriver 4) 0x2F] ++
   [.bit (ioOut.ChannelRedDoNotWalkDriver 5) 0x30,
    .bit (ioOut.ChannelRedDoNotWalkDriver 5) 0x31,
    .bit (ioOut.ChannelYellowPedClearDriver 5) 0x32,
    .bit (ioOut.ChannelYellowPedClearDriver 5) 0x33,
    .bit (ioOut.ChannelGreenWalkDriver 5) 0x34,
    .bit (ioOut.ChannelGreenWalkDriver 5) 0x35,
    .bit (ioOut.ChannelRedDoNotWalkDriver 6) 0x36,
    .bit (ioOut.ChannelRedDoNotWalkDriver 6) 0x37,
    .bit (ioOut.ChannelYellowPedClearDriver 6) 0x38,
    .bit (ioOut.ChannelYellowPedClearDriver 6) 0x39,
    .bit (ioOut.ChannelGreenWalkDriver 6) 0x3A,
    .bit (ioOut.ChannelGreenWalkDriver 6) 0x3B,
    .bit (ioOut.ChannelRedDoNotWalkDriver 7) 0x3C,
    .bit (ioOut.ChannelRedDoNotWalkDriver 7) 0x3D,
    .bit (ioOut.ChannelYellowPedClearDriver 7) 0x3E,
    .bit (ioOut.ChannelYellowPedClearDriver 7) 0x3F,
    .bit (ioOut.ChannelGreenWalkDriver 7) 0x40,
    .bit (ioOut.ChannelGreenWalkDriver 7) 0x41,
    .bit (ioOut.ChannelRedDoNotWalkDriver 8) 0x42,
    .bit (ioOut.ChannelRedDoNotWalkDriver 8) 0x43,
    .bit (ioOut.ChannelYellowPedClearDriver 8) 0x44,
    .bit (ioOut.ChannelYellowPedClearDriver 8) 0x45,
    .bit (ioOut.ChannelGreenWalkDriver 8) 0x46,
    .bit (ioOut.ChannelGreenWalkDriver 8) 0x47,
    .bit ioOut.UnitTBCAux_1 0x48,
    .bit ioOut.UnitTBCAux_2 0x49,
    .bit (ioOut.PreemptStatus 1) 0x4A,
    .bit (ioOut.PreemptStatus 2) 0x4B]⟩

/-- Frame Type 11: TfBiu02_OutputsInputsRequestFrame, an 11-byte received
command frame carrying loadswitch drivers for channels 9..16. -/
def TfBiu02_OutputsInputsRequestFrame : FrameDef :=
  ⟨0x01, 0x0B, 11,
   [.bit (ioOut.ChannelRedDoNotWalkDriver 9) 0x18,
    .bit (ioOut.ChannelRedDoNotWalkDriver 9) 0x19,
    .bit (ioOut.ChannelYellowPedClearDriver 9) 0x1A,
    .bit (ioOut.ChannelYellowPedClearDriver 9) 0x1B,
    .bit (ioOut.ChannelGreenWalkDriver 9) 0x1C,
    .bit (ioOut.ChannelGreenWalkDriver 9) 0x1D,
    .bit (ioOut.ChannelRedDoNotWalkDriver 10) 0x1E,
    .bit (ioOut.ChannelRedDoNotWalkDriver 10) 0x1F,
    .bit (ioOut.ChannelYellowPedClearDriver 10) 0x20,
    .bit (ioOut.ChannelYellowPedClearDriver 10) 0x21,
    .bit (ioOut.ChannelGreenWalkDriver 10) 0x22,
    .bit (ioOut.ChannelGreenWalkDriver 10) 0x23,
    .bit (ioOut.ChannelRedDoNotWalkDriver 11) 0x24,
    .bit (ioOut.ChannelRedDoNotWalkDriver 11) 0x25,
    .bit (ioOut.ChannelYellowPedClearDriver 11) 0x26,
    .bit (ioOut.ChannelYellowPedClearDriver 11) 0x27,
    .bit (ioOut.ChannelGreenWalkDriver 11) 0x28,
    .bit (ioOut.ChannelGreenWalkDriver 11) 0x29,
    .bit (ioOut.ChannelRedDoNotWalkDriver 12) 0x2A,
    .bit (ioOut.ChannelRedDoNotWalkDriver 12) 0x2B,
    .bit (ioOut.ChannelYellowPedClearDriver 12) 0x2C,
    .bit (ioOut.ChannelYellowPedClearDriver 12) 0x2D,
    .bit (ioOut.ChannelGreenWalkDriver 12) 0x2E,
    .bit (ioOut.ChannelGreenWalkDriver 12) 0x2F] ++
   [.bit (ioOut.ChannelRedDoNotWalkDriver 13) 0x30,
    .bit (ioOut.ChannelRedDoNotWalkDriver 13) 0x31,
    .bit (ioOut.ChannelYellowPedClearDriver 13) 0x32,
    .bit (ioOut.ChannelYellowPedClearDriver 13) 0x33,
    .bit (ioOut.ChannelGreenWalkDriver 13) 0x34,
    .bit (ioOut.ChannelGreenWalkDriver 13) 0x35,
    .bit (ioOut.ChannelRedDoNotWalkDriver 14) 0x36,
    .bit (ioOut.ChannelRedDoNotWalkDriver 14) 0x37,
    .bit (ioOut.ChannelYellowPedClearDriver 14) 0x38,
    .bit (ioOut.ChannelYellowPedClearDriver 14) 0x39,
    .bit (ioOut.ChannelGreenWalkDriver 14) 0x3A,
    .bit (ioOut.ChannelGreenWalkDriver 14) 0x3B,
    .bit (ioOut.ChannelRedDoNotWalkDriver 15) 0x3C,
    .bit (ioOut.ChannelRedDoNotWalkDriver 15) 0x3D,
    .bit (ioOut.ChannelYellowPedClearDriver 15) 0x3E,
    .bit (ioOut.ChannelYellowPedClearDriver 15) 0x3F,
    .bit (ioOut.ChannelGreenWalkDriver 15) 0x40,
    .bit (ioOut.ChannelGreenWalkDriver 15) 0x41,
    .bit (ioOut.ChannelRedDoNotWalkDriver 16) 0x42,
    .bit (ioOut.ChannelRedDoNotWalkDriver 16) 0x43,
    .bit (ioOut.ChannelYellowPedClearDriver 16) 0x44,
    .bit (ioOut.ChannelYellowPedClearDriver 16) 0x45,
    .bit (ioOut.ChannelGreenWalkDriver 16) 0x46,
    .bit (ioOut.ChannelGreenWalkDriver 16) 0x47,
    .bit ioOut.UnitTBCAux_3 0x48,
    .bit ioOut.UnitFreeCoordStatus 0x49,
    .bit (ioOut.PreemptStatus 3) 0x4A,
    .bit (ioOut.PreemptStatus 4) 0x4B,
    .bit (ioOut.PreemptStatus 5) 0x4C,
    .bit (ioOut.PreemptStatus 6) 0x4D]⟩

/-- Frame Type 12: TfBiu03_OutputsInputsRequestFrame, an 8-byte received
command frame. -/
def TfBiu03_OutputsInputsRequestFrame : FrameDef :=
  ⟨0x02, 0x0C, 8,
   [.bit ioOut.UnitTimingPlanA 0x18,
    .bit ioOut.UnitTimingPlanB 0x19,
    .bit ioOut.UnitTimingPlanC 0x1A,
    .bit ioOut.UnitTimingPlanD 0x1B,
    .bit ioOut.UnitOffset_1 0x1C,
    .bit ioOut.UnitOffset_2 0x1D,
    .bit ioOut.UnitOffset_3 0x1E,
    .bit ioOut.UnitAutomaticFlash 0x1F,
    .bit (ioOut.SpecialFunction 1) 0x20,
    .bit (ioOut.SpecialFunction 2) 0x21,
    .bit (ioOut.SpecialFunction 3) 0x22,
    .bit (ioOut.SpecialFunction 4) 0x23,
    .bit ioOut.StatusBitA_Ring_1 0x28,
    .bit ioOut.StatusBitB_Ring_1 0x29,
    .bit ioOut.StatusBitC_Ring_1 0x2A,
    .bit ioOut.StatusBitA_Ring_2 0x2B,
    .bit ioOut.StatusBitB_Ring_2 0x2C,
    .bit ioOut.StatusBitC_Ring_2 0x2D]⟩

/-- Frame Type 13: TfBiu04_OutputsInputsRequestFrame, an 8-byte received
command frame. -/
def TfBiu04_OutputsInputsRequestFrame : FrameDef :=
  ⟨0x03, 0x0D, 8,
   [.bit (ioOut.PhaseOn 1) 0x18,
    .bit (ioOut.PhaseOn 2) 0x19,
    .bit (ioOut.PhaseOn 3) 0x1A,
    .bit (ioOut.PhaseOn 4) 0x1B,
    .bit (ioOut.PhaseOn 5) 0x1C,
    .bit (ioOut.PhaseOn 6) 0x1D,
    .bit (ioOut.PhaseOn 7) 0x1E,
    .bit (ioOut.PhaseOn 8) 0x1F,
    .bit (ioOut.PhaseNext 1) 0x20,
    .bit (ioOut.PhaseNext 2) 0x21,
    .bit (ioOut.PhaseNext 3) 0x22,
    .bit (ioOut.PhaseNext 4) 0x23,
    .bit (ioOut.PhaseNext 5) 0x24,
    .bit (ioOut.PhaseNext 6) 0x25,
    .bit (ioOut.PhaseNext 7) 0x26,
    .bit (ioOut.PhaseNext 8) 0x28,
    .bit (ioOut.PhaseCheck 1) 0x29,
    .bit (ioOut.PhaseCheck 2) 0x2A,
    .bit (ioOut.PhaseCheck 3) 0x2B,
    .bit (ioOut.PhaseCheck 4) 0x2C,
    .bit (ioOut.PhaseCheck 5) 0x2D,
    .bit (ioOut.PhaseCheck 6) 0x2E,
    .bit (ioOut.PhaseCheck 7) 0x2F,
    .bit (ioOut.PhaseCheck 8) 0x30]⟩

/-- Frame Type 18: OutputTransferFrame, a 3-byte received broadcast command
frame with no payload elements. -/
def OutputTransferFrame : FrameDef := ⟨0xFF, 0x12, 3, []⟩

/-- Frame Type 20: DrBiu01_CallRequestFrame, 3 bytes, no elements. -/
def DrBiu01_CallRequestFrame : FrameDef := ⟨0x08, 0x14, 3, []⟩

/-- Frame Type 21: DrBiu02_CallRequestFrame, 3 bytes, no elements. -/
def DrBiu02_CallRequestFrame : FrameDef := ⟨0x09, 0x15, 3, []⟩

/-- Frame Type 22: DrBiu03_CallRequestFrame, 3 bytes, no elements. -/
def DrBiu03_CallRequestFrame : FrameDef := ⟨0x0A, 0x16, 3, []⟩

/-- Frame Type 23: DrBiu04_CallRequestFrame, 3 bytes, no elements. -/
def DrBiu04_CallRequestFrame : FrameDef := ⟨0x0B, 0x17, 3, []⟩

/-- Frame Type 24: DrBiu01_ResetDiagnosticRequestFrame, 4 bytes, one byte
element at position 3. -/
def DrBiu01_ResetDiagnosticRequestFrame : FrameDef :=
  ⟨0x08, 0x18, 4, [.byte (ioOut.DetectorReset 1) 3]⟩

/-- Frame Type 25: DrBiu02_ResetDiagnosticRequestFrame. -/
def DrBiu02_ResetDiagnosticRequestFrame : FrameDef :=
  ⟨0x09, 0x19, 4, [.byte (ioOut.DetectorReset 2) 3]⟩

/-- Frame Type 26: DrBiu03_ResetDiagnosticRequestFrame. -/
def DrBiu03_ResetDiagnosticRequestFrame : FrameDef :=
  ⟨0x0A, 0x1A, 4, [.byte (ioOut.DetectorReset 3) 3]⟩

/-- Frame Type 27: DrBiu04_ResetDiagnosticRequestFrame. -/
def DrBiu04_ResetDiagnosticRequestFrame : FrameDef :=
  ⟨0x0B, 0x1B, 4, [.byte (ioOut.DetectorReset 4) 3]⟩

/-- Frame Type 128: LoadSwitchDriversAckFrame, a 3-byte generated response
frame with no payload elements. -/
def LoadSwitchDriversAckFrame : FrameDef := ⟨0x10, 0x80, 3, []⟩

/-- Frame Type 129: MMUInputStatusRequestAckFrame, a 13-byte generated
response frame. The layout is transcribed verbatim from the source,
including its duplicate binding of channel 14 green status to both bit
0x25 and bit 0x26 (and no binding for channel 15 green status). -/
def MMUInputStatusRequestAckFrame : FrameDef :=
  ⟨0x10, 0x81, 13,
   [.bit (mmu.ChannelGreenWalkStatus 0x01) 0x18,
    .bit (mmu.ChannelGreenWalkStatus 0x02) 0x19,
    .bit (mmu.ChannelGreenWalkStatus 0x03) 0x1A,
    .bit (mmu.ChannelGreenWalkStatus 0x04) 0x1B,
    .bit (mmu.ChannelGreenWalkStatus 0x05) 0x1C,
    .bit (mmu.ChannelGreenWalkStatus 0x06) 0x1D,
    .bit (mmu.ChannelGreenWalkStatus 0x07) 0x1E,
    .bit (mmu.ChannelGreenWalkStatus 0x08) 0x1F,
    .bit (mmu.ChannelGreenWalkStatus 0x09) 0x20,
    .bit (mmu.ChannelGreenWalkStatus 0x0A) 0x21,
    .bit (mmu.ChannelGreenWalkStatus 0x0B) 0x22,
    .bit (mmu.ChannelGreenWalkStatus 0x0C) 0x23,
    .bit (mmu.ChannelGreenWalkStatus 0x0D) 0x24,
    .bit (mmu.ChannelGreenWalkStatus 0x0E) 0x25,
    .bit (mmu.ChannelGreenWalkStatus 0x0E) 0x26,
    .bit (mmu.ChannelGreenWalkStatus 0x10) 0x27,
    .bit (mmu.ChannelYellowPedClearStatus 0x01) 0x28,
    .bit (mmu.ChannelYellowPedClearStatus 0x02) 0x29,
    .bit (mmu.ChannelYellowPedClearStatus 0x03) 0x2A,
    .bit (mmu.ChannelYellowPedClearStatus 0x04) 0x2B,
    .bit (mmu.ChannelYellowPedClearStatus 0x05) 0x2C,
    .bit (mmu.ChannelYellowPedClearStatus 0x06) 0x2D,
    .bit (mmu.ChannelYellowPedClearStatus 0x07) 0x2E,
    .bit (mmu.ChannelYellowPedClearStatus 0x08) 0x2F,
    .bit (mmu.ChannelYellowPedClearStatus 0x09) 0x30,
    .bit (mmu.ChannelYellowPedClearStatus 0x0A) 0x31,
    .bit (mmu.ChannelYellowPedClearStatus 0x0B) 0x32,
    .bit (mmu.ChannelYellowPedClearStatus 0x0C) 0x33,
    .bit (mmu.ChannelYellowPedClearStatus 0x0D) 0x34,
    .bit (mmu.ChannelYellowPedClearStatus 0x0E) 0x35,
    .bit (mmu.ChannelYellowPedClearStatus 0x0F) 0x36,
    .bit (mmu.ChannelYellowPedClearStatus 0x10) 0x37] ++
   [.bit (mmu.ChannelRedDoNotWalkStatus 0x01) 0x38,
    .bit (mmu.ChannelRedDoNotWalkStatus 0x02) 0x39,
    .bit (mmu.ChannelRedDoNotWalkStatus 0x03) 0x3A,
    .bit (mmu.ChannelRedDoNotWalkStatus 0x04) 0x3B,
    .bit (mmu.ChannelRedDoNotWalkStatus 0x05) 0x3C,
    .bit (mmu.ChannelRedDoNotWalkStatus 0x06) 0x3D,
    .bit (mmu.ChannelRedDoNotWalkStatus 0x07) 0x3E,
    .bit (mmu.ChannelRedDoNotWalkStatus 0x08) 0x3F,
    .bit (mmu.ChannelRedDoNotWalkStatus 0x09) 0x40,
    .bit (mmu.ChannelRedDoNotWalkStatus 0x0A) 0x41,
    .bit (mmu.ChannelRedDoNotWalkStatus 0x0B) 0x42,
    .bit (mmu.ChannelRedDoNotWalkStatus 0x0C) 0x43,
    .bit (mmu.ChannelRedDoNotWalkStatus 0x0D) 0x44,
    .bit (mmu.ChannelRedDoNotWalkStatus 0x0E) 0x45,
    .bit (mmu.ChannelRedDoNotWalkStatus 0x0F) 0x46,
    .bit (mmu.ChannelRedDoNotWalkStatus 0x10) 0x47,
    .bit mmu.ControllerVoltMonitor 0x48,
    .bit mmu._24VoltMonitor_I 0x49,
    .bit mmu._24VoltMonitor_II 0x4A,
    .bit mmu._24VoltMonitorInhibit 0x4B,
    .bit mmu.Reset 0x4C,
    .bit mmu.RedEnable 0x4D,
    .bit mmu.Conflict 0x50,
    .bit mmu.RedFailure 0x51,
    .bit mmu.DiagnosticFailure 0x58,
    .bit mmu.MinimumClearanceFailure 0x59,
    .bit mmu.Port1TimeoutFailure 0x5A,
    .bit mmu.FailedAndOutputRelayTransferred 0x5B,
    .bit mmu.FailedAndImmediateResponse 0x5C,
    .bit mmu.LocalFlashStatus 0x5E,
    .bit mmu.StartupFlashCall 0x5F,
    .bit mmu.FYAFlashRateFailure 0x60]⟩

/-- Frame Type 131: MMUProgrammingRequestAckFrame, a 23-byte generated
response frame: the 120 channel-compatibility bits in bytes 3..17, the 16
minimum-yellow-change-disable bits in bytes 18..19, and the flash-time and
latch bits in byte 20. -/
def MMUProgrammingRequestAckFrame : FrameDef :=
  ⟨0x10, 0x83, 23,
   [.bit (mmu.ChannelCompatibilityStatus 0x01 0x02) 0x18,
    .bit (mmu.ChannelCompatibilityStatus 0x01 0x03) 0x19,
    .bit (mmu.ChannelCompatibilityStatus 0x01 0x04) 0x1A,
    .bit (mmu.ChannelCompatibilityStatus 0x01 0x05) 0x1B,
    .bit (mmu.ChannelCompatibilityStatus 0x01 0x06) 0x1C,
    .bit (mmu.ChannelCompatibilityStatus 0x01 0x07) 0x1D,
    .bit (mmu.ChannelCompatibilityStatus 0x01 0x08) 0x1E,
    .bit (mmu.ChannelCompatibilityStatus 0x01 0x09) 0x1F,
    .bit (mmu.ChannelCompatibilityStatus 0x01 0x0A) 0x20,
    .bit (mmu.ChannelCompatibilityStatus 0x01 0x0B) 0x21,
    .bit (mmu.ChannelCompatibilityStatus 0x01 0x0C) 0x22,
    .bit (mmu.ChannelCompatibilityStatus 0x01 0x0D) 0x23,
    .bit (mmu.ChannelCompatibilityStatus 0x01 0x0E) 0x24,
    .bit (mmu.ChannelCompatibilityStatus 0x01 0x0F) 0x25,
    .bit (mmu.ChannelCompatibilityStatus 0x01 0x10) 0x26,
    .bit (mmu.ChannelCompatibilityStatus 0x02 0x03) 0x27,
    .bit (mmu.ChannelCompatibilityStatus 0x02 0x04) 0x28,
    .bit (mmu.ChannelCompatibilityStatus 0x02 0x05) 0x29,
    .bit (mmu.ChannelCompatibilityStatus 0x02 0x06) 0x2A,
    .bit (mmu.ChannelCompatibilityStatus 0x02 0x07) 0x2B,
    .bit (mmu.ChannelCompatibilityStatus 0x02 0x08) 0x2C,
    .bit (mmu.ChannelCompatibilityStatus 0x02 0x09) 0x2D,
    .bit (mmu.ChannelCompatibilityStatus 0x02 0x0A) 0x2E,
    .bit (mmu.ChannelCompatibilityStatus 0x02 0x0B) 0x2F,
    .bit (mmu.ChannelCompatibilityStatus 0x02 0x0C) 0x30,
    .bit (mmu.ChannelCompatibilityStatus 0x02 0x0D) 0x31,
    .bit (mmu.ChannelCompatibilityStatus 0x02 0x0E) 0x32,
    .bit (mmu.ChannelCompatibilityStatus 0x02 0x0F) 0x33,
    .bit (mmu.ChannelCompatibilityStatus 0x02 0x10) 0x34,
    .bit (mmu.ChannelCompatibilityStatus 0x03 0x04) 0x35,
    .bit (mmu.ChannelCompatibilityStatus 0x03 0x05) 0x36,
    .bit (mmu.ChannelCompatibilityStatus 0x03 0x06) 0x37,
    .bit (mmu.ChannelCompatibilityStatus 0x03 0x07) 0x38,
    .bit (mmu.ChannelCompatibilityStatus 0x03 0x08) 0x39,
    .bit (mmu.ChannelCompatibilityStatus 0x03 0x09) 0x3A,
    .bit (mmu.ChannelCompatibilityStatus 0x03 0x0A) 0x3B,
    .bit (mmu.ChannelCompatibilityStatus 0x03 0x0B) 0x3C,
    .bit (mmu.ChannelCompatibilityStatus 0x03 0x0C) 0x3D,
    .bit (mmu.ChannelCompatibilityStatus 0x03 0x0D) 0x3E,
    .bit (mmu.ChannelCompatibilityStatus 0x03 0x0E) 0x3F] ++
   [.bit (mmu.ChannelCompatibilityStatus 0x03 0x0F) 0x40,
    .bit (mmu.ChannelCompatibilityStatus 0x03 0x10) 0x41,
    .bit (mmu.ChannelCompatibilityStatus 0x04 0x05) 0x42,
    .bit (mmu.ChannelCompatibilityStatus 0x04 0x06) 0x43,
    .bit (mmu.ChannelCompatibilityStatus 0x04 0x07) 0x44,
    .bit (mmu.ChannelCompatibilityStatus 0x04 0x08) 0x45,
    .bit (mmu.ChannelCompatibilityStatus 0x04 0x09) 0x46,
    .bit (mmu.ChannelCompatibilityStatus 0x04 0x0A) 0x47,
    .bit (mmu.ChannelCompatibilityStatus 0x04 0x0B) 0x48,
    .bit (mmu.ChannelCompatibilityStatus 0x04 0x0C) 0x49,
    .bit (mmu.ChannelCompatibilityStatus 0x04 0x0D) 0x4A,
    .bit (mmu.ChannelCompatibilityStatus 0x04 0x0E) 0x4B,
    .bit (mmu.ChannelCompatibilityStatus 0x04 0x0F) 0x4C,
    .bit (mmu.ChannelCompatibilityStatus 0x04 0x10) 0x4D,
    .bit (mmu.ChannelCompatibilityStatus 0x05 0x06) 0x4E,
    .bit (mmu.ChannelCompatibilityStatus 0x05 0x07) 0x4F,
    .bit (mmu.ChannelCompatibilityStatus 0x05 0x08) 0x50,
    .bit (mmu.ChannelCompatibilityStatus 0x05 0x09) 0x51,
    .bit (mmu.ChannelCompatibilityStatus 0x05 0x0A) 0x52,
    .bit (mmu.ChannelCompatibilityStatus 0x05 0x0B) 0x53,
    .bit (mmu.ChannelCompatibilityStatus 0x05 0x0C) 0x54,
    .bit (mmu.ChannelCompatibilityStatus 0x05 0x0D) 0x55,
    .bit (mmu.ChannelCompatibilityStatus 0x05 0x0E) 0x56,
    .bit (mmu.ChannelCompatibilityStatus 0x05 0x0F) 0x57,
    .bit (mmu.ChannelCompatibilityStatus 0x05 0x10) 0x58,
    .bit (mmu.ChannelCompatibilityStatus 0x06 0x07) 0x59,
    .bit (mmu.ChannelCompatibilityStatus 0x06 0x08) 0x5A,
    .bit (mmu.ChannelCompatibilityStatus 0x06 0x09) 0x5B,
    .bit (mmu.ChannelCompatibilityStatus 0x06 0x0A) 0x5C,
    .bit (mmu.ChannelCompatibilityStatus 0x06 0x0B) 0x5D,
    .bit (mmu.ChannelCompatibilityStatus 0x06 0x0C) 0x5E,
    .bit (mmu.ChannelCompatibilityStatus 0x06 0x0D) 0x5F,
    .bit (mmu.ChannelCompatibilityStatus 0x06 0x0E) 0x60,
    .bit (mmu.ChannelCompatibilityStatus 0x06 0x0F) 0x61,
    .bit (mmu.ChannelCompatibilityStatus 0x06 0x10) 0x62,
    .bit (mmu.ChannelCompatibilityStatus 0x07 0x08) 0x63,
    .bit (mmu.ChannelCompatibilityStatus 0x07 0x09) 0x64,
    .bit (mmu.ChannelCompatibilityStatus 0x07 0x0A) 0x65,
    .bit (mmu.ChannelCompatibilityStatus 0x07 0x0B) 0x66,
    .bit (mmu.ChannelCompatibilityStatus 0x07 0x0C) 0x67] ++
   [.bit (mmu.ChannelCompatibilityStatus 0x07 0x0D) 0x68,
    .bit (mmu.ChannelCompatibilityStatus 0x07 0x0E) 0x69,
    .bit (mmu.ChannelCompatibilityStatus 0x07 0x0F) 0x6A,
    .bit (mmu.ChannelCompatibilityStatus 0x07 0x10) 0x6B,
    .bit (mmu.ChannelCompatibilityStatus 0x08 0x09) 0x6C,
    .bit (mmu.ChannelCompatibilityStatus 0x08 0x0A) 0x6D,
    .bit (mmu.ChannelCompatibilityStatus 0x08 0x0B) 0x6E,
    .bit (mmu.ChannelCompatibilityStatus 0x08 0x0C) 0x6F,
    .bit (mmu.ChannelCompatibilityStatus 0x08 0x0D) 0x70,
    .bit (mmu.ChannelCompatibilityStatus 0x08 0x0E) 0x71,
    .bit (mmu.ChannelCompatibilityStatus 0x08 0x0F) 0x72,
    .bit (mmu.ChannelCompatibilityStatus 0x08 0x10) 0x73,
    .bit (mmu.ChannelCompatibilityStatus 0x09 0x0A) 0x74,
    .bit (mmu.ChannelCompatibilityStatus 0x09 0x0B) 0x75,
    .bit (mmu.ChannelCompatibilityStatus 0x09 0x0C) 0x76,
    .bit (mmu.ChannelCompatibilityStatus 0x09 0x0D) 0x77,
    .bit (mmu.ChannelCompatibilityStatus 0x09 0x0E) 0x78,
    .bit (mmu.ChannelCompatibilityStatus 0x09 0x0F) 0x79,
    .bit (mmu.ChannelCompatibilityStatus 0x09 0x10) 0x7A,
    .bit (mmu.ChannelCompatibilityStatus 0x0A 0x0B) 0x7B,
    .bit (mmu.ChannelCompatibilityStatus 0x0A 0x0C) 0x7C,
    .bit (mmu.ChannelCompatibilityStatus 0x0A 0x0D) 0x7D,
    .bit (mmu.ChannelCompatibilityStatus 0x0A 0x0E) 0x7E,
    .bit (mmu.ChannelCompatibilityStatus 0x0A 0x0F) 0x7F,
    .bit (mmu.ChannelCompatibilityStatus 0x0A 0x10) 0x80,
    .bit (mmu.ChannelCompatibilityStatus 0x0B 0x0C) 0x81,
    .bit (mmu.ChannelCompatibilityStatus 0x0B 0x0D) 0x82,
    .bit (mmu.ChannelCompatibilityStatus 0x0B 0x0E) 0x83,
    .bit (mmu.ChannelCompatibilityStatus 0x0B 0x0F) 0x84,
    .bit (mmu.ChannelCompatibilityStatus 0x0B 0x10) 0x85,
    .bit (mmu.ChannelCompatibilityStatus 0x0C 0x0D) 0x86,
    .bit (mmu.ChannelCompatibilityStatus 0x0C 0x0E) 0x87,
    .bit (mmu.ChannelCompatibilityStatus 0x0C 0x0F) 0x88,
    .bit (mmu.ChannelCompatibilityStatus 0x0C 0x10) 0x89,
    .bit (mmu.ChannelCompatibilityStatus 0x0D 0x0E) 0x8A,
    .bit (mmu.ChannelCompatibilityStatus 0x0D 0x0F) 0x8B,
    .bit (mmu.ChannelCompatibilityStatus 0x0D 0x10) 0x8C,
    .bit (mmu.ChannelCompatibilityStatus 0x0E 0x0F) 0x8D,
    .bit (mmu.ChannelCompatibilityStatus 0x0E 0x10) 0x8E,
    .bit (mmu.ChannelCompatibilityStatus 0x0F 0x10) 0x8F] ++
   [.bit (mmu.MinimumYellowChangeDisable 0x01) 0x90,
    .bit (mmu.MinimumYellowChangeDisable 0x02) 0x91,
    .bit (mmu.MinimumYellowChangeDisable 0x03) 0x92,
    .bit (mmu.MinimumYellowChangeDisable 0x04) 0x93,
    .bit (mmu.MinimumYellowChangeDisable 0x05) 0x94,
    .bit (mmu.MinimumYellowChangeDisable 0x06) 0x95,
    .bit (mmu.MinimumYellowChangeDisable 0x07) 0x96,
    .bit (mmu.MinimumYellowChangeDisable 0x08) 0x97,
    .bit (mmu.MinimumYellowChangeDisable 0x09) 0x98,
    .bit (mmu.MinimumYellowChangeDisable 0x0A) 0x99,
    .bit (mmu.MinimumYellowChangeDisable 0x0B) 0x9A,
    .bit (mmu.MinimumYellowChangeDisable 0x0C) 0x9B,
    .bit (mmu.MinimumYellowChangeDisable 0x0D) 0x9C,
    .bit (mmu.MinimumYellowChangeDisable 0x0E) 0x9D,
    .bit (mmu.MinimumYellowChangeDisable 0x0F) 0x9E,
    .bit (mmu.MinimumYellowChangeDisable 0x10) 0x9F,
    .bit mmu.MinimumFlashTimeBit_0 0xA0,
    .bit mmu.MinimumFlashTimeBit_1 0xA1,
    .bit mmu.MinimumFlashTimeBit_2 0xA2,
    .bit mmu.MinimumFlashTimeBit_3 0xA3,
    .bit mmu._24VoltLatch 0xA4,
    .bit mmu.CVMFaultMonitorLatch 0xA5]⟩

/-- Frame Type 138: TfBiu01_InputFrame, an 8-byte generated response frame. -/
def TfBiu01_InputFrame : FrameDef :=
  ⟨0x00, 0x8A, 8,
   [.bit (ioIn.PreemptInput 1) 0x25,
    .bit (ioIn.PreemptInput 2) 0x26,
    .bit ioIn.UnitTestInputA 0x27,
    .bit ioIn.UnitTestInputB 0x28,
    .bit ioIn.UnitAutomaticFlash 0x29,
    .bit ioIn.UnitDimming 0x2A,
    .bit ioIn.UnitManualControlEnable 0x2B,
    .bit ioIn.UnitIntervalAdvance 0x2C,
    .bit ioIn.UnitExternalMinRecall 0x2D,
    .bit ioIn.UnitExternalStart 0x2E,
    .bit ioIn.UnitTBCOnline 0x2F,
    .bit (ioIn.RingStopTiming 1) 0x30,
    .bit (ioIn.RingStopTiming 2) 0x31,
    .bit (ioIn.RingMax2Selection 1) 0x32,
    .bit (ioIn.RingMax2Selection 2) 0x33,
    .bit (ioIn.RingForceOff 1) 0x34,
    .bit (ioIn.RingForceOff 2) 0x35,
    .bit ioIn.UnitCallToNonActuated_1 0x36,
    .bit ioIn.UnitWalkRestModifier 0x37,
    .bit (ioIn.PedDetCall 1) 0x38,
    .bit (ioIn.PedDetCall 2) 0x39,
    .bit (ioIn.PedDetCall 3) 0x3A,
    .bit (ioIn.PedDetCall 4) 0x3B]⟩

/-- Frame Type 139: TfBiu02_InputFrame, an 8-byte generated response frame. -/
def TfBiu02_InputFrame : FrameDef :=
  ⟨0x01, 0x8B, 8,
   [.bit (ioIn.PreemptInput 3) 0x27,
    .bit (ioIn.PreemptInput 4) 0x28,
    .bit (ioIn.PreemptInput 5) 0x29,
    .bit (ioIn.PreemptInput 6) 0x2A,
    .bit ioIn.UnitCallToNonActuated_2 0x2B,
    .bit (ioIn.RingInhibitMaxTermination 1) 0x30,
    .bit (ioIn.RingInhibitMaxTermination 2) 0x31,
    .bit ioIn.UnitLocalFlash 0x32,
    .bit ioIn.UnitCMUMMUFlashStatus 0x33,
    .bit ioIn.UnitAlarm_1 0x34,
    .bit ioIn.UnitAlarm_2 0x35,
    .bit ioIn.CoordFreeSwitch 0x36,
    .bit ioIn.UnitTestInputC 0x37,
    .bit (ioIn.PedDetCall 5) 0x38,
    .bit (ioIn.PedDetCall 6) 0x39,
    .bit (ioIn.PedDetCall 7) 0x3A,
    .bit (ioIn.PedDetCall 8) 0x3B]⟩

/-- Frame Type 140: TfBiu03_InputFrame, an 8-byte generated response frame.
The layout is transcribed verbatim from the source, including its duplicate
binding of both ring-1 RedRest and ring-2 RedRest to bit position 0x1E. -/
def TfBiu03_InputFrame : FrameDef :=
  ⟨0x02, 0x8C, 8,
   [.bit (ioIn.RingRedRest 1) 0x1E,
    .bit (ioIn.RingRedRest 2) 0x1E,
    .bit (ioIn.RingOmitRedClearance 1) 0x20,
    .bit (ioIn.RingOmitRedClearance 2) 0x21,
    .bit (ioIn.RingPedestrianRecycle 1) 0x22,
    .bit (ioIn.RingPedestrianRecycle 2) 0x23,
    .bit ioIn.UnitAlternateSequenceA 0x24,
    .bit ioIn.UnitAlternateSequenceB 0x25,
    .bit ioIn.UnitAlternateSequenceC 0x26,
    .bit ioIn.UnitAlternateSequenceD 0x27,
    .bit (ioIn.PhasePhaseOmit 1) 0x28,
    .bit (ioIn.PhasePhaseOmit 2) 0x29,
    .bit (ioIn.PhasePhaseOmit 3) 0x2A,
    .bit (ioIn.PhasePhaseOmit 4) 0x2B,
    .bit (ioIn.PhasePhaseOmit 5) 0x2C,
    .bit (ioIn.PhasePhaseOmit 6) 0x2D,
    .bit (ioIn.PhasePhaseOmit 7) 0x2E,
    .bit (ioIn.PhasePhaseOmit 8) 0x2F,
    .bit (ioIn.PhasePedOmit 1) 0x30,
    .bit (ioIn.PhasePedOmit 2) 0x31,
    .bit (ioIn.PhasePedOmit 3) 0x32,
    .bit (ioIn.PhasePedOmit 4) 0x33,
    .bit (ioIn.PhasePedOmit 5) 0x34,
    .bit (ioIn.PhasePedOmit 6) 0x35,
    .bit (ioIn.PhasePedOmit 7) 0x36,
    .bit (ioIn.PhasePedOmit 8) 0x37,
    .bit ioIn.UnitTimingPlanA 0x38,
    .bit ioIn.UnitTimingPlanB 0x39,
    .bit ioIn.UnitTimingPlanC 0x3A,
    .bit ioIn.UnitTimingPlanD 0x3B]⟩

/-- Frame Type 141: TfBiu04_InputFrame, an 8-byte generated response frame.
Its FrameID byte is 0x8C in the source, same as frame type 140. -/
def TfBiu04_InputFrame : FrameDef :=
  ⟨0x03, 0x8C, 8,
   [.bit ioIn.UnitSystemAddressBit_0 0x21,
    .bit ioIn.UnitSystemAddressBit_1 0x22,
    .bit ioIn.UnitSystemAddressBit_2 0x23,
    .bit ioIn.UnitSystemAddressBit_3 0x24,
    .bit ioIn.UnitSystemAddressBit_4 0x25,
    .bit (ioIn.PhasePedOmit 1) 0x30,
    .bit (ioIn.PhasePedOmit 2) 0x31,
    .bit (ioIn.PhasePedOmit 3) 0x32,
    .bit (ioIn.PhasePedOmit 4) 0x33,
    .bit (ioIn.PhasePedOmit 5) 0x34,
    .bit (ioIn.PhasePedOmit 6) 0x35,
    .bit (ioIn.PhasePedOmit 7) 0x36,
    .bit (ioIn.PhasePedOmit 8) 0x37,
    .bit ioIn.UnitOffset_1 0x38,
    .bit ioIn.UnitOffset_2 0x39,
    .bit ioIn.UnitOffset_3 0x3A]⟩

/-- Frame Type 148: DrBiu01_CallDataFrame, a 39-byte generated response
frame; only detector call status bit 0 (bits 280..295) is used. -/
def DrBiu01_CallDataFrame : FrameDef :=
  ⟨0x08, 0x94, 39,
   [.bit (ioIn.VehicleDetCall 0x01) 0x0118,
    .bit (ioIn.VehicleDetCall 0x02) 0x0119,
    .bit (ioIn.VehicleDetCall 0x03) 0x011A,
    .bit (ioIn.VehicleDetCall 0x04) 0x011B,
    .bit (ioIn.VehicleDetCall 0x05) 0x011C,
    .bit (ioIn.VehicleDetCall 0x06) 0x011D,
    .bit (ioIn.VehicleDetCall 0x07) 0x011E,
    .bit (ioIn.VehicleDetCall 0x08) 0x011F,
    .bit (ioIn.VehicleDetCall 0x09) 0x0120,
    .bit (ioIn.VehicleDetCall 0x0A) 0x0121,
    .bit (ioIn.VehicleDetCall 0x0B) 0x0122,
    .bit (ioIn.VehicleDetCall 0x0C) 0x0123,
    .bit (ioIn.VehicleDetCall 0x0D) 0x0124,
    .bit (ioIn.VehicleDetCall 0x0E) 0x0125,
    .bit (ioIn.VehicleDetCall 0x0F) 0x0126,
    .bit (ioIn.VehicleDetCall 0x10) 0x0127]⟩

/-- Frame Type 149: DrBiu02_CallDataFrame (detectors 17..32). -/
def DrBiu02_CallDataFrame : FrameDef :=
  ⟨0x09, 0x95, 39,
   [.bit (ioIn.VehicleDetCall 0x11) 0x0118,
    .bit (ioIn.VehicleDetCall 0x12) 0x0119,
    .bit (ioIn.VehicleDetCall 0x13) 0x011A,
    .bit (ioIn.VehicleDetCall 0x14) 0x011B,
    .bit (ioIn.VehicleDetCall 0x15) 0x011C,
    .bit (ioIn.VehicleDetCall 0x16) 0x011D,
    .bit (ioIn.VehicleDetCall 0x17) 0x011E,
    .bit (ioIn.VehicleDetCall 0x18) 0x011F,
    .bit (ioIn.VehicleDetCall 0x19) 0x0120,
    .bit (ioIn.VehicleDetCall 0x1A) 0x0121,
    .bit (ioIn.VehicleDetCall 0x1B) 0x0122,
    .bit (ioIn.VehicleDetCall 0x1C) 0x0123,
    .bit (ioIn.VehicleDetCall 0x1D) 0x0124,
    .bit (ioIn.VehicleDetCall 0x1E) 0x0125,
    .bit (ioIn.VehicleDetCall 0x1F) 0x0126,
    .bit (ioIn.VehicleDetCall 0x20) 0x0127]⟩

/-- Frame Type 150: DrBiu03_CallDataFrame (detectors 33..48). -/
def DrBiu03_CallDataFrame : FrameDef :=
  ⟨0x0A, 0x96, 39,
   [.bit (ioIn.VehicleDetCall 0x21) 0x0118,
    .bit (ioIn.VehicleDetCall 0x22) 0x0119,
    .bit (ioIn.VehicleDetCall 0x23) 0x011A,
    .bit (ioIn.VehicleDetCall 0x24) 0x011B,
    .bit (ioIn.VehicleDetCall 0x25) 0x011C,
    .bit (ioIn.VehicleDetCall 0x26) 0x011D,
    .bit (ioIn.VehicleDetCall 0x27) 0x011E,
    .bit (ioIn.VehicleDetCall 0x28) 0x011F,
    .bit (ioIn.VehicleDetCall 0x29) 0x0120,
    .bit (ioIn.VehicleDetCall 0x2A) 0x0121,
    .bit (ioIn.VehicleDetCall 0x2B) 0x0122,
    .bit (ioIn.VehicleDetCall 0x2C) 0x0123,
    .bit (ioIn.VehicleDetCall 0x2D) 0x0124,
    .bit (ioIn.VehicleDetCall 0x2E) 0x0125,
    .bit (ioIn.VehicleDetCall 0x2F) 0x0126,
    .bit (ioIn.VehicleDetCall 0x30) 0x0127]⟩

/-- Frame Type 151: DrBiu04_CallDataFrame (detectors 49..64). -/
def DrBiu04_CallDataFrame : FrameDef :=
  ⟨0x0B, 0x97, 39,
   [.bit (ioIn.VehicleDetCall 0x31) 0x0118,
    .bit (ioIn.VehicleDetCall 0x32) 0x0119,
    .bit (ioIn.VehicleDetCall 0x33) 0x011A,
    .bit (ioIn.VehicleDetCall 0x34) 0x011B,
    .bit (ioIn.VehicleDetCall 0x35) 0x011C,
    .bit (ioIn.VehicleDetCall 0x36) 0x011D,
    .bit (ioIn.VehicleDetCall 0x37) 0x011E,
    .bit (ioIn.VehicleDetCall 0x38) 0x011F,
    .bit (ioIn.VehicleDetCall 0x39) 0x0120,
    .bit (ioIn.VehicleDetCall 0x3A) 0x0121,
    .bit (ioIn.VehicleDetCall 0x3B) 0x0122,
    .bit (ioIn.VehicleDetCall 0x3C) 0x0123,
    .bit (ioIn.VehicleDetCall 0x3D) 0x0124,
    .bit (ioIn.VehicleDetCall 0x3E) 0x0125,
    .bit (ioIn.VehicleDetCall 0x3F) 0x0126,
    .bit (ioIn.VehicleDetCall 0x40) 0x0127]⟩

/-- Frame Type 152: DrBiu01_DiagnosticFrame, 19 bytes, payload all zero. -/
def DrBiu01_DiagnosticFrame : FrameDef := ⟨0x08, 0x98, 19, []⟩

/-- Frame Type 153: DrBiu02_DiagnosticFrame. -/
def DrBiu02_DiagnosticFrame : FrameDef := ⟨0x09, 0x99, 19, []⟩

/-- Frame Type 154: DrBiu03_DiagnosticFrame. -/
def DrBiu03_DiagnosticFrame : FrameDef := ⟨0x0A, 0x9A, 19, []⟩

/-- Frame Type 155: DrBiu04_DiagnosticFrame; its address byte is 0x0A in the
source, same as frame 154. -/
def DrBiu04_DiagnosticFrame : FrameDef := ⟨0x0A, 0x9B, 19, []⟩

/-- The ordered dispatch table of (received command frame, generated
response frame) pairs, as laid out in FrameMaps. -/
def frameMaps : List (FrameDef × FrameDef) :=
  [(LoadSwitchDriversFrame, LoadSwitchDriversAckFrame),
   (MMUInputStatusRequestFrame, MMUInputStatusRequestAckFrame),
   (MMUProgrammingRequestFrame, MMUProgrammingRequestAckFrame),
   (TfBiu01_OutputsInputsRequestFrame, TfBiu01_InputFrame),
   (TfBiu02_OutputsInputsRequestFrame, TfBiu02_InputFrame),
   (TfBiu03_OutputsInputsRequestFrame, TfBiu03_InputFrame),
   (TfBiu04_OutputsInputsRequestFrame, TfBiu04_InputFrame),
   (DrBiu01_CallRequestFrame, DrBiu01_CallDataFrame),
   (DrBiu02_CallRequestFrame, DrBiu02_CallDataFrame),
   (DrBiu03_CallRequestFrame, DrBiu03_CallDataFrame),
   (DrBiu04_CallRequestFrame, DrBiu04_CallDataFrame),
   (DrBiu01_ResetDiagnosticRequestFrame, DrBiu01_DiagnosticFrame),
   (DrBiu02_ResetDiagnosticRequestFrame, DrBiu02_DiagnosticFrame),
   (DrBiu03_ResetDiagnosticRequestFrame, DrBiu03_DiagnosticFrame),
   (DrBiu04_ResetDiagnosticRequestFrame, DrBiu04_DiagnosticFrame)]

/-- The linear scan of Dispatch over the remaining table entries: the first
pair whose command id equals byte 2 of the input decodes the input into the
variable table and encodes its paired response from the updated table; when
no entry matches, the result is (false, untouched previous buffer) and the
variable table is untouched. The previous shared-buffer contents, which the
caller must not transmit, are passed through as prev. -/
def dispatchAux (data : List Nat) (prev : List Nat) (s : State) :
    List (FrameDef × FrameDef) → (Bool × List Nat) × State
  | [] => ((false, prev), s)
  | (cmd, res) :: rest =>
    if cmd.id = data.getD 2 0 then
      let s' := decodeFrame cmd data s
      ((true, encodeFrame res s'), s')
    else dispatchAux data prev s rest

/-- serial::Dispatch: scan the dispatch table for the command frame whose id
equals byte 2 of the inbound bytes. -/
def Dispatch (data : List Nat) (prev : List Nat) (s : State) :
    (Bool × List Nat) × State :=
  dispatchAux data prev s frameMaps

/-- The effect one element's encode has on output byte k, given the byte's
previous value acc: the byte-k projection of Element.encode. -/
def encodeAt (s : State) (k : Nat) (acc : Nat) : Element → Nat
  | .bit v pos =>
      if k = pos / 8 then acc ||| ((if s v = 1 then 1 else 0) <<< (pos % 8))
      else acc
  | .byte v pos => if k = pos then s v else acc
  | .word v pos =>
      if k = pos + 1 then s v >>> 8 else if k = pos then s v &&& 0xFF else acc

/-- Whether decoding frame f from a byte slice of length n reads only
indices below n, for every declared element. -/
def decodeInBounds (f : FrameDef) (n : Nat) : Bool :=
  f.elements.all (fun e => e.inBounds n)

/-- The frames declared with a received direction (SSR_CommandFrameType),
the ones whose operator<< decode path exists. -/
def receivableFrames : List FrameDef :=
  [LoadSwitchDriversFrame,
   MMUInputStatusRequestFrame,
   MMUProgrammingRequestFrame,
   DateTimeBroadcastFrame,
   TfBiu01_OutputsInputsRequestFrame,
   TfBiu02_OutputsInputsRequestFrame,
   TfBiu03_OutputsInputsRequestFrame,
   TfBiu04_OutputsInputsRequestFrame,
   OutputTransferFrame,
   DrBiu01_CallRequestFrame,
   DrBiu02_CallRequestFrame,
   DrBiu03_CallRequestFrame,
   DrBiu04_CallRequestFrame,
   DrBiu01_ResetDiagnosticRequestFrame,
   DrBiu02_ResetDiagnosticRequestFrame,
   DrBiu03_ResetDiagnosticRequestFrame,
   DrBiu04_ResetDiagnosticRequestFrame]

end serial

namespace mmu

/-- ChannelSegmentSize: the number of compatibility entries channel c owns
in the linear bitset (pairs (c, c+1) .. (c, 16)). -/
def ChannelSegmentSize (c : Nat) : Nat := 16 - c

/-- ChannelSegmentStartPos: start position of channel c's segment in the
120-bit linear bitset; channel 1 starts at 0 and channel c + 1 starts at
ChannelSegmentSize c positions after channel c. -/
def ChannelSegmentStartPos : Nat → Nat
  | 0 => 0
  | 1 => 0
  | n + 1 => ChannelSegmentSize n + ChannelSegmentStartPos n

/-- The linear bit offset of pair (i, j): ChannelSegmentStartPos i plus
(j - i - 1). -/
def linOffset (p : Nat × Nat) : Nat :=
  ChannelSegmentStartPos p.1 + p.2 - p.1 - 1

/-- The ordered channel pairs the compile-time recursion of
SetMMU16ChannelCompatibility / GetMMU16ChannelCompatibility enumerates:
for each Ix = 1..15 the paired indexes Iy = Ix+1..16. -/
def compatPairs : List (Nat × Nat) :=
  (List.range' 1 15).flatMap
    (fun i => (List.range' (i + 1) (16 - i)).map (fun j => (i, j)))

/-- One step of impl::SetMMU16ChannelCompatibility: write bit
linOffset (i, j) of the bitset into the ChannelCompatibilityStatus variable
of pair (i, j). -/
def setCompatStep (b : Nat → Bool) (s : State) (p : Nat × Nat) : State :=
  fupd s (ChannelCompatibilityStatus p.1 p.2) (if b (linOffset p) then 1 else 0)

/-- SetMMU16ChannelCompatibility(const std::bitset<0x78>&): set every
channel-pair compatibility variable from the 120-bit bitset. -/
def SetMMU16ChannelCompatibility (b : Nat → Bool) (s : State) : State :=
  compatPairs.foldl (setCompatStep b) s

/-- One step of impl::GetMMU16ChannelCompatibility: write 1 into bit
linOffset (i, j) of the bitset exactly when the pair's variable reads On. -/
def getCompatStep (s : State) (b : Nat → Bool) (p : Nat × Nat) : Nat → Bool :=
  fupd b (linOffset p) (s (ChannelCompatibilityStatus p.1 p.2) = 1)

/-- GetMMU16ChannelCompatibility(std::bitset<0x78>&): read every
channel-pair compatibility variable into the bitset passed in. -/
def GetMMU16ChannelCompatibility (s : State) (b : Nat → Bool) : Nat → Bool :=
  compatPairs.foldl (getCompatStep s) b

/-- vtc::mmu::reverse on a bitset of size n: the most significant bit
becomes the least significant bit. -/
def reverseBitset (n : Nat) (b : Nat → Bool) : Nat → Bool :=
  fun k => if k < n then b (n - 1 - k) else b k

/-- The std::bitset<0x78> constructor from a string of 0/1 characters:
with M the smaller of 120 and the string length, bit k < M comes from
character M - 1 - k (so the last used character is bit 0) and all higher
bits are zero. -/
def bitsetOfBitChars (l : List Char) : Nat → Bool :=
  fun k =>
    if k < min 120 l.length then l.getD (min 120 l.length - 1 - k) '0' = '1'
    else false

/-- The switch of SetMMU16ChannelCompatibility(const std::string&): expand
an upper-cased hex character into its four binary characters, most
significant bit first; characters outside 0..F append nothing. -/
def hexCharToBitChars (c : Char) : List Char :=
  match c.toUpper with
  | '0' => ['0', '0', '0', '0']
  | '1' => ['0', '0', '0', '1']
  | '2' => ['0', '0', '1', '0']
  | '3' => ['0', '0', '1', '1']
  | '4' => ['0', '1', '0', '0']
  | '5' => ['0', '1', '0', '1']
  | '6' => ['0', '1', '1', '0']
  | '7' => ['0', '1', '1', '1']
  | '8' => ['1', '0', '0', '0']
  | '9' => ['1', '0', '0', '1']
  | 'A' => ['1', '0', '1', '0']
  | 'B' => ['1', '0', '1', '1']
  | 'C' => ['1', '1', '0', '0']
  | 'D' => ['1', '1', '0', '1']
  | 'E' => ['1', '1', '1', '0']
  | 'F' => ['1', '1', '1', '1']
  | _ => []

/-- SetMMU16ChannelCompatibility(const std::string&): build the binary
character string from the hex string, construct the 120-bit bitset from it,
and apply the bitset setter. No length check is performed here. -/
def SetMMU16ChannelCompatibilityStr (hexstr : List Char) (s : State) : State :=
  SetMMU16ChannelCompatibility
    (bitsetOfBitChars (hexstr.flatMap hexCharToBitChars)) s

/-- The hard-coded default ring-and-barrier pattern literal of
SetDefaultMMU16ChannelCompatibility: 15 rows, row i listing channels
i+1 .. 16, concatenated into one 120-character string. -/
def defaultCompatPattern : List Char :=
  ("000110000100000"
    ++ "00110010100000"
    ++ "0001100010000"
    ++ "001101010000"
    ++ "00010000000"
    ++ "0010100000"
    ++ "001000000"
    ++ "01010000"
    ++ "0100000"
    ++ "010000"
    ++ "00000"
    ++ "0000"
    ++ "000"
    ++ "00"
    ++ "0").toList

/-- SetDefaultMMU16ChannelCompatibility: build the bitset from the pattern
literal, reverse it so the least significant bit is pair (1,2), then apply
the bitset setter. -/
def SetDefaultMMU16ChannelCompatibility (s : State) : State :=
  SetMMU16ChannelCompatibility
    (reverseBitset 120 (bitsetOfBitChars defaultCompatPattern)) s

end mmu

namespace hils

/-- hils::HilsCI::load_mmu16_channel_compatibility. The argument is the
optional channel_compatibility attribute of the XML configuration; the
returned Bool records whether the error branch was taken. With the
attribute present but not exactly 30 characters long the source only logs
the error "Invalid MMU16 compatibility string {}. Default used." and calls
no setter; with the attribute absent it applies the hard-coded default. -/
def load_mmu16_channel_compatibility (cfg : Option (List Char)) (s : State) :
    State × Bool :=
  match cfg with
  | some str =>
    if str.length ≠ 30 then (s, true)
    else (mmu.SetMMU16ChannelCompatibilityStr str s, false)
  | none => (mmu.SetDefaultMMU16ChannelCompatibility s, false)

/-- The four loadswitch channel indications. -/
inductive LoadswitchChannelState : Type
  | Blank
  | Red
  | Yellow
  | Green
deriving DecidableEq, Repr

/-- LoadswitchChannel::state: the matchit pattern match over the three
driver bits (green/walk, yellow/ped-clear, red/do-not-walk), with true
standing for Bit::On. Patterns are tried in declaration order and every
combination other than the three one-hot ones yields Blank. -/
def loadswitchChannelState : Bool → Bool → Bool → LoadswitchChannelState
  | true, false, false => .Green
  | false, true, false => .Yellow
  | false, false, true => .Red
  | _, _, _ => .Blank

/-- The state of loadswitch channel i as read from the variable table: the
channel's driver triple references the io::output channel driver variables. -/
def LoadswitchChannel.state (i : Nat) (s : State) : LoadswitchChannelState :=
  loadswitchChannelState
    (s (ioOut.ChannelGreenWalkDriver i) == 1)
    (s (ioOut.ChannelYellowPedClearDriver i) == 1)
    (s (ioOut.ChannelRedDoNotWalkDriver i) == 1)

end hils

/- Helper lemmas about the embedding. -/

theorem fupd_ne {α β : Type} [DecidableEq α] (f : α → β) (a : α) (x : β)
    {y : α} (h : y ≠ a) : fupd f a x y = f y :=
  if_neg h

theorem Element.decode_ne (e : serial.Element) (data : List Nat) (s : State)
    (v : VarId) (h : e.var ≠ v) : e.decode data s v = s v := by
  cases e with
  | bit w pos => exact fupd_ne s w _ (Ne.symm h)
  | byte w pos => exact fupd_ne s w _ (Ne.symm h)
  | word w pos => exact fupd_ne s w _ (Ne.symm h)

theorem decode_foldl_ne (L : List serial.Element) (data : List Nat) (s : State)
    (v : VarId) (h : ∀ e ∈ L, e.var ≠ v) :
    (L.foldl (fun s e => e.decode data s) s) v = s v := by
  induction L generalizing s with
  | nil => rfl
  | cons a L ih =>
    rw [List.foldl_cons, ih _ (fun e he => h e (List.mem_cons_of_mem _ he))]
    exact Element.decode_ne a data s v (h a (List.mem_cons_self a L))

theorem Element.encode_apply (e : serial.Element) (s : State) (b : Nat → Nat)
    (k : Nat) : e.encode s b k = serial.encodeAt s k (b k) e := by
  cases e with
  | bit v pos =>
    simp only [serial.Element.encode, serial.encodeAt, fupd]
    split
    · next h => rw [h]
    · rfl
  | byte v pos => rfl
  | word v pos => rfl

theorem encode_foldl_apply (L : List serial.Element) (s : State) (b : Nat → Nat)
    (k : Nat) :
    (L.foldl (fun b e => e.encode s b) b) k = L.foldl (serial.encodeAt s k) (b k) := by
  induction L generalizing b with
  | nil => rfl
  | cons a L ih => rw [List.foldl_cons, List.foldl_cons, ih, Element.encode_apply]

theorem encodeFrame_length (f : serial.FrameDef) (s : State) :
    (serial.encodeFrame f s).length = f.bytesize := by
  simp [serial.encodeFrame]

theorem encodeFrame_getD (f : serial.FrameDef) (s : State) (k : Nat)
    (hk : k < f.bytesize) :
    (serial.encodeFrame f s).getD k 0 = serial.encodeFrameBuf f s k := by
  simp [serial.encodeFrame, List.getD_eq_getElem?_getD, List.getElem?_map,
    List.getElem?_range, hk]

theorem dispatchAux_no_match (data prev : List Nat) (s : State)
    (L : List (serial.FrameDef × serial.FrameDef))
    (h : ∀ pr ∈ L, pr.1.id ≠ data.getD 2 0) :
    serial.dispatchAux data prev s L = ((false, prev), s) := by
  induction L with
  | nil => rfl
  | cons a L ih =>
    obtain ⟨cmd, res⟩ := a
    rw [serial.dispatchAux, if_neg (h (cmd, res) (List.mem_cons_self _ _))]
    exact ih (fun pr hpr => h pr (List.mem_cons_of_mem _ hpr))

/- Claim theorems. -/

/-- C4: for every loadswitch channel, the state is a total function of the
three driver bits: (On, Off, Off) yields Green, (Off, On, Off) yields
Yellow, (Off, Off, On) yields Red, and the five remaining combinations
(all-off, all-on, and every two-or-more-on pattern) all yield Blank; the
per-channel state function reads exactly the channel's three io::output
driver variables. -/
theorem loadswitch_channel_state_table :
    hils.loadswitchChannelState true false false = hils.LoadswitchChannelState.Green ∧
    hils.loadswitchChannelState false true false = hils.LoadswitchChannelState.Yellow ∧
    hils.loadswitchChannelState false false true = hils.LoadswitchChannelState.Red ∧
    hils.loadswitchChannelState false false false = hils.LoadswitchChannelState.Blank ∧
    hils.loadswitchChannelState true true false = hils.LoadswitchChannelState.Blank ∧
    hils.loadswitchChannelState true false true = hils.LoadswitchChannelState.Blank ∧
    hils.loadswitchChannelState false true true = hils.LoadswitchChannelState.Blank ∧
    hils.loadswitchChannelState true true true = hils.LoadswitchChannelState.Blank ∧
    (∀ i : Nat, ∀ s : State, hils.LoadswitchChannel.state i s =
      hils.loadswitchChannelState
        (s (ioOut.ChannelGreenWalkDriver i) == 1)
        (s (ioOut.ChannelYellowPedClearDriver i) == 1)
        (s (ioOut.ChannelRedDoNotWalkDriver i) == 1)) :=
  ⟨rfl, rfl, rfl, rfl, rfl, rfl, rfl, rfl, fun _ _ => rfl⟩

/-- C8: the declared layouts preserve the transcription artifacts: the
frame-type-129 layout binds channel 14 green/walk status to both bit 0x25
and bit 0x26 while binding channel 15 green/walk status to no position, and
the frame-type-140 layout binds both ring-1 RedRest and ring-2 RedRest to
bit position 0x1E. -/
theorem frame129_frame140_transcribed_duplicates :
    serial.Element.bit (mmu.ChannelGreenWalkStatus 14) 0x25 ∈
      serial.MMUInputStatusRequestAckFrame.elements ∧
    serial.Element.bit (mmu.ChannelGreenWalkStatus 14) 0x26 ∈
      serial.MMUInputStatusRequestAckFrame.elements ∧
    (∀ e ∈ serial.MMUInputStatusRequestAckFrame.elements,
      e.var ≠ mmu.ChannelGreenWalkStatus 15) ∧
    serial.Element.bit (ioIn.RingRedRest 1) 0x1E ∈
      serial.TfBiu03_InputFrame.elements ∧
    serial.Element.bit (ioIn.RingRedRest 2) 0x1E ∈
      serial.TfBiu03_InputFrame.elements := by
  decide

/-- C10: decoding a frame mutates only the cabinet variables referenced by
the frame's declared elements; every variable not referenced by any element
keeps its previous value. -/
theorem decode_preserves_unreferenced_variables (f : serial.FrameDef)
    (data : List Nat) (s : State) (v : VarId)
    (h : ∀ e ∈ f.elements, e.var ≠ v) :
    serial.decodeFrame f data s v = s v :=
  decode_foldl_ne f.elements data s v h

/-- C10 witness: decoding the type-9 date/time broadcast test fixture
leaves the (1,2) channel-compatibility variable unchanged. -/
theorem decode_preserves_unreferenced_variables_witness :
    (∀ e ∈ serial.DateTimeBroadcastFrame.elements,
      e.var ≠ mmu.ChannelCompatibilityStatus 1 2) ∧
    serial.decodeFrame serial.DateTimeBroadcastFrame
      [0xFF, 0x83, 0x09, 0x03, 0x12, 0x16, 0x11, 0x20, 0x00, 0x00, 0x01, 0x02]
      (fun _ => 0) (mmu.ChannelCompatibilityStatus 1 2) =
      (fun _ => (0 : Nat)) (mmu.ChannelCompatibilityStatus 1 2) :=
  ⟨by decide, decode_preserves_unreferenced_variables _ _ _ _ (by decide)⟩

/-- C5: when byte 2 of the input matches no command-frame id in the
dispatch table, Dispatch reports no match, hands back the previous buffer
contents, and leaves every cabinet variable unchanged. -/
theorem dispatch_unmatched_leaves_state (data prev : List Nat) (s : State)
    (hlen : 3 ≤ data.length)
    (h : ∀ pr ∈ serial.frameMaps, pr.1.id ≠ data.getD 2 0) :
    serial.Dispatch data prev s = ((false, prev), s) :=
  dispatchAux_no_match data prev s serial.frameMaps h

/-- C5 witness: frame type 2 appears in no dispatch table entry. -/
theorem dispatch_unmatched_leaves_state_witness :
    3 ≤ ([0x10, 0x83, 0x02] : List Nat).length ∧
    (∀ pr ∈ serial.frameMaps, pr.1.id ≠ ([0x10, 0x83, 0x02] : List Nat).getD 2 0) ∧
    serial.Dispatch [0x10, 0x83, 0x02] [] (fun _ => 0) =
      ((false, []), (fun _ => 0 : State)) :=
  ⟨by decide, by decide,
    dispatch_unmatched_leaves_state _ _ _ (by decide) (by decide)⟩

theorem setCompat_foldl_ne (L : List (Nat × Nat)) (b : Nat → Bool) (s : State)
    (v : VarId)
    (h : ∀ p ∈ L, mmu.ChannelCompatibilityStatus p.1 p.2 ≠ v) :
    (L.foldl (mmu.setCompatStep b) s) v = s v := by
  induction L generalizing s with
  | nil => rfl
  | cons a L ih =>
    rw [List.foldl_cons, ih _ (fun p hp => h p (List.mem_cons_of_mem _ hp))]
    exact fupd_ne s _ _ (Ne.symm (h a (List.mem_cons_self a L)))

theorem setCompat_foldl_read (L : List (Nat × Nat)) (b : Nat → Bool) (s : State)
    (i j : Nat)
    (hnd : (L.map (fun q => mmu.ChannelCompatibilityStatus q.1 q.2)).Nodup)
    (hij : (i, j) ∈ L) :
    (L.foldl (mmu.setCompatStep b) s) (mmu.ChannelCompatibilityStatus i j) =
      if b (mmu.linOffset (i, j)) then 1 else 0 := by
  induction L generalizing s with
  | nil => cases hij
  | cons a L ih =>
    rw [List.map_cons, List.nodup_cons] at hnd
    rw [List.foldl_cons]
    rcases List.mem_cons.mp hij with rfl | hmem
    · have hni : ∀ p ∈ L, mmu.ChannelCompatibilityStatus p.1 p.2 ≠
          mmu.ChannelCompatibilityStatus (i, j).1 (i, j).2 := by
        intro p hp heq
        exact hnd.1 (heq ▸ List.mem_map_of_mem _ hp)
      rw [setCompat_foldl_ne L b _ _ hni]
      simp [mmu.setCompatStep, fupd]
    · exact ih (mmu.setCompatStep b s a) hnd.2 hmem

theorem getCompat_foldl_ne (L : List (Nat × Nat)) (s : State) (b : Nat → Bool)
    (k : Nat) (h : ∀ p ∈ L, mmu.linOffset p ≠ k) :
    (L.foldl (mmu.getCompatStep s) b) k = b k := by
  induction L generalizing b with
  | nil => rfl
  | cons a L ih =>
    rw [List.foldl_cons, ih _ (fun p hp => h p (List.mem_cons_of_mem _ hp))]
    exact fupd_ne b _ _ (Ne.symm (h a (List.mem_cons_self a L)))

theorem getCompat_foldl_read (L : List (Nat × Nat)) (s : State) (b : Nat → Bool)
    (i j : Nat) (hnd : (L.map mmu.linOffset).Nodup) (hij : (i, j) ∈ L) :
    (L.foldl (mmu.getCompatStep s) b) (mmu.linOffset (i, j)) =
      decide (s (mmu.ChannelCompatibilityStatus i j) = 1) := by
  induction L generalizing b with
  | nil => cases hij
  | cons a L ih =>
    rw [List.map_cons, List.nodup_cons] at hnd
    rw [List.foldl_cons]
    rcases List.mem_cons.mp hij with rfl | hmem
    · have hni : ∀ p ∈ L, mmu.linOffset p ≠ mmu.linOffset (i, j) := by
        intro p hp heq
        exact hnd.1 (heq ▸ List.mem_map_of_mem _ hp)
      rw [getCompat_foldl_ne L s _ _ hni]
      simp [mmu.getCompatStep, fupd]
    · exact ih (mmu.getCompatStep s b a) hnd.2 hmem

theorem compatPairs_map_linOffset :
    mmu.compatPairs.map mmu.linOffset = List.range 120 := by
  decide

theorem compatPairs_vars_nodup :
    (mmu.compatPairs.map
      (fun q => mmu.ChannelCompatibilityStatus q.1 q.2)).Nodup := by
  decide

/-- C2: setting the channel-pair compatibility variables from any 120-bit
bitset via the triangular offset scheme and reading them back into a fresh
bitset reproduces the original bitset at every one of its 120 positions. -/
theorem mmu16_compat_set_get_roundtrip (s : State) (b : Nat → Bool) (k : Nat)
    (hk : k < 120) :
    mmu.GetMMU16ChannelCompatibility (mmu.SetMMU16ChannelCompatibility b s)
      (fun _ => false) k = b k := by
  have hkmem : k ∈ mmu.compatPairs.map mmu.linOffset := by
    rw [compatPairs_map_linOffset]
    exact List.mem_range.mpr hk
  obtain ⟨p, hp, hlin⟩ := List.mem_map.mp hkmem
  obtain ⟨i, j⟩ := p
  subst hlin
  rw [mmu.GetMMU16ChannelCompatibility,
    getCompat_foldl_read _ _ _ i j
      (by rw [compatPairs_map_linOffset]; exact List.nodup_range 120) hp,
    mmu.SetMMU16ChannelCompatibility,
    setCompat_foldl_read _ _ _ i j compatPairs_vars_nodup hp]
  cases b (mmu.linOffset (i, j)) <;> simp

/-- C2 witness: the roundtrip at bit 0 of the all-ones bitset. -/
theorem mmu16_compat_set_get_roundtrip_witness :
    0 < 120 ∧
    mmu.GetMMU16ChannelCompatibility
      (mmu.SetMMU16ChannelCompatibility (fun _ => true) (fun _ => 0))
      (fun _ => false) 0 = (fun _ => true : Nat → Bool) 0 :=
  ⟨by decide, mmu16_compat_set_get_roundtrip _ _ 0 (by decide)⟩

/-- C3: after the hex-string setter runs on the worked example
"00001020A020280202B02300A60218", the (1,5) and (1,6) compatibility
variables read On and the (1,2) variable reads Off. -/
theorem mmu16_compat_hexstring_example (s : State) :
    (mmu.SetMMU16ChannelCompatibilityStr
      "00001020A020280202B02300A60218".toList s)
      (mmu.ChannelCompatibilityStatus 1 5) = 1 ∧
    (mmu.SetMMU16ChannelCompatibilityStr
      "00001020A020280202B02300A60218".toList s)
      (mmu.ChannelCompatibilityStatus 1 6) = 1 ∧
    (mmu.SetMMU16ChannelCompatibilityStr
      "00001020A020280202B02300A60218".toList s)
      (mmu.ChannelCompatibilityStatus 1 2) = 0 := by
  refine ⟨?_, ?_, ?_⟩
  · rw [mmu.SetMMU16ChannelCompatibilityStr, mmu.SetMMU16ChannelCompatibility,
      setCompat_foldl_read _ _ _ 1 5 compatPairs_vars_nodup (by decide)]
    decide
  · rw [mmu.SetMMU16ChannelCompatibilityStr, mmu.SetMMU16ChannelCompatibility,
      setCompat_foldl_read _ _ _ 1 6 compatPairs_vars_nodup (by decide)]
    decide
  · rw [mmu.SetMMU16ChannelCompatibilityStr, mmu.SetMMU16ChannelCompatibility,
      setCompat_foldl_read _ _ _ 1 2 compatPairs_vars_nodup (by decide)]
    decide

/-- C6 counterexample: the hex-string setter itself performs no length
check; called directly with the 2-character string "FF" it flips the (1,2)
compatibility variable from Off to On. -/
theorem hexstring_setter_no_length_check :
    "FF".toList.length ≠ 30 ∧
    mmu.SetMMU16ChannelCompatibilityStr "FF".toList (fun _ => 0)
      (mmu.ChannelCompatibilityStatus 1 2) = 1 ∧
    (fun _ => (0 : Nat) : State) (mmu.ChannelCompatibilityStatus 1 2) = 0 := by
  refine ⟨by decide, by decide, rfl⟩

/-- C6 amended: the length check lives in the configuration loader, not in
the raw hex-string setter: the loader rejects a hex string whose length is
not exactly 30, reports the failure, and mutates no cabinet variable. -/
theorem loader_rejects_wrong_length_compat_string (str : List Char) (s : State)
    (h : str.length ≠ 30) :
    hils.load_mmu16_channel_compatibility (some str) s = (s, true) := by
  simp [hils.load_mmu16_channel_compatibility, h]

/-- C6 amended witness: the loader rejects the 2-character string "FF". -/
theorem loader_rejects_wrong_length_compat_string_witness :
    "FF".toList.length ≠ 30 ∧
    hils.load_mmu16_channel_compatibility (some "FF".toList) (fun _ => 0) =
      ((fun _ => 0 : State), true) :=
  ⟨by decide, loader_rejects_wrong_length_compat_string _ _ (by decide)⟩

/-- C7: with a wrong-length compatibility string the loader only logs the
error (whose text claims "Default used.") and does not apply the default
pattern: starting from the all-zero table, the (1,5) compatibility variable
stays 0, while applying the hard-coded default would set it to 1. The
default is applied only when the attribute is absent. -/
theorem loader_wrong_length_default_not_applied :
    "00001020A020280202B02300A6021".toList.length = 29 ∧
    (hils.load_mmu16_channel_compatibility
      (some "00001020A020280202B02300A6021".toList) (fun _ => 0)).2 = true ∧
    (hils.load_mmu16_channel_compatibility
      (some "00001020A020280202B02300A6021".toList) (fun _ => 0)).1
      (mmu.ChannelCompatibilityStatus 1 5) = 0 ∧
    mmu.SetDefaultMMU16ChannelCompatibility (fun _ => 0)
      (mmu.ChannelCompatibilityStatus 1 5) = 1 ∧
    (hils.load_mmu16_channel_compatibility none (fun _ => 0)).1
      (mmu.ChannelCompatibilityStatus 1 5) = 1 := by
  refine ⟨by decide, by decide, by decide, by decide, by decide⟩

theorem Element.inBounds_mono {e : serial.Element} {m n : Nat}
    (h : e.inBounds m = true) (hmn : m ≤ n) : e.inBounds n = true := by
  cases e <;> simp [serial.Element.inBounds] at h ⊢ <;> omega

theorem decodeInBounds_mono {f : serial.FrameDef} {m n : Nat}
    (h : serial.decodeInBounds f m = true) (hmn : m ≤ n) :
    serial.decodeInBounds f n = true := by
  rw [serial.decodeInBounds, List.all_eq_true] at h ⊢
  exact fun e he => Element.inBounds_mono (h e he) hmn

/-- C9 counterexample: it is not the case that decoding every receivable
frame stays in bounds on every byte slice of at least the 3-byte header
length: the 16-byte type-0 frame read out of bounds on a 3-byte slice. -/
theorem decode_header_length_bound_false :
    ¬ (∀ f ∈ serial.receivableFrames, ∀ n : Nat, 3 ≤ n →
        serial.decodeInBounds f n = true) := fun h =>
  absurd (h serial.LoadSwitchDriversFrame (by decide) 3 (by decide)) (by decide)

/-- C9 amended: decoding a receivable frame reads only in-bounds indices on
every byte slice of at least the frame's declared byte size (not merely the
3-byte header length). -/
theorem decode_in_bounds_at_declared_bytesize (f : serial.FrameDef)
    (hf : f ∈ serial.receivableFrames) (n : Nat) (hn : f.bytesize ≤ n) :
    serial.decodeInBounds f n = true := by
  fin_cases hf <;> exact decodeInBounds_mono (by decide) hn

/-- C9 amended witness: the 3-byte type-3 request decodes in bounds from a
3-byte slice. -/
theorem decode_in_bounds_at_declared_bytesize_witness :
    serial.MMUProgrammingRequestFrame ∈ serial.receivableFrames ∧
    serial.MMUProgrammingRequestFrame.bytesize ≤ 3 ∧
    serial.decodeInBounds serial.MMUProgrammingRequestFrame 3 = true :=
  ⟨by decide, by decide,
    decode_in_bounds_at_declared_bytesize _ (by decide) 3 (by decide)⟩

/-- C1: dispatching the 3-byte type-3 MMU programming request when the
(1,2) channel-pair compatibility variable is On and every other valid
channel-pair compatibility variable is Off yields a matched response of the
declared 23-byte size of the type-131 frame whose byte 3 equals 0x01: bit 0
reflects the (1,2) compatibility and the other bits of that byte are zero. -/
theorem dispatch_type3_mmu_programming_response (prev : List Nat) (s : State)
    (h1 : s (mmu.ChannelCompatibilityStatus 1 2) = 1)
    (h2 : ∀ i ∈ List.range 17, ∀ j ∈ List.range 17,
      1 ≤ i → i < j → ¬(i = 1 ∧ j = 2) →
      s (mmu.ChannelCompatibilityStatus i j) = 0) :
    (serial.Dispatch [0x10, 0x83, 0x03] prev s).1.1 = true ∧
    (serial.Dispatch [0x10, 0x83, 0x03] prev s).1.2.length =
      serial.MMUProgrammingRequestAckFrame.bytesize ∧
    serial.MMUProgrammingRequestAckFrame.bytesize = 23 ∧
    (serial.Dispatch [0x10, 0x83, 0x03] prev s).1.2.getD 3 0 = 0x01 := by
  have hD : serial.Dispatch [0x10, 0x83, 0x03] prev s =
      ((true, serial.encodeFrame serial.MMUProgrammingRequestAckFrame s), s) := rfl
  refine ⟨by rw [hD], ?_, rfl, ?_⟩
  · rw [hD]
    exact encodeFrame_length _ _
  · rw [hD]
    show (serial.encodeFrame serial.MMUProgrammingRequestAckFrame s).getD 3 0 = 1
    rw [encodeFrame_getD _ _ 3 (by decide)]
    rw [serial.encodeFrameBuf, encode_foldl_apply]
    have hh : serial.frameHeader serial.MMUProgrammingRequestAckFrame 3 = 0 := rfl
    rw [hh]
    have e13 := h2 1 (by decide) 3 (by decide) (by decide) (by decide) (by decide)
    have e14 := h2 1 (by decide) 4 (by decide) (by decide) (by decide) (by decide)
    have e15 := h2 1 (by decide) 5 (by decide) (by decide) (by decide) (by decide)
    have e16 := h2 1 (by decide) 6 (by decide) (by decide) (by decide) (by decide)
    have e17 := h2 1 (by decide) 7 (by decide) (by decide) (by decide) (by decide)
    have e18 := h2 1 (by decide) 8 (by decide) (by decide) (by decide) (by decide)
    have e19 := h2 1 (by decide) 9 (by decide) (by decide) (by decide) (by decide)
    simp [serial.MMUProgrammingRequestAckFrame, serial.encodeAt,
      List.foldl_append, h1, e13, e14, e15, e16, e17, e18, e19]

/-- C1 witness: the state holding exactly the (1,2) compatibility bit. -/
theorem dispatch_type3_mmu_programming_response_witness :
    ((fun v => if v = mmu.ChannelCompatibilityStatus 1 2 then 1 else 0 : State)
      (mmu.ChannelCompatibilityStatus 1 2) = 1) ∧
    (∀ i ∈ List.range 17, ∀ j ∈ List.range 17,
      1 ≤ i → i < j → ¬(i = 1 ∧ j = 2) →
      (fun v => if v = mmu.ChannelCompatibilityStatus 1 2 then 1 else 0 : State)
        (mmu.ChannelCompatibilityStatus i j) = 0) ∧
    ((serial.Dispatch [0x10, 0x83, 0x03] []
        (fun v => if v = mmu.ChannelCompatibilityStatus 1 2 then 1 else 0)).1.1 = true ∧
      (serial.Dispatch [0x10, 0x83, 0x03] []
        (fun v => if v = mmu.ChannelCompatibilityStatus 1 2 then 1 else 0)).1.2.length =
        serial.MMUProgrammingRequestAckFrame.bytesize ∧
      serial.MMUProgrammingRequestAckFrame.bytesize = 23 ∧
      (serial.Dispatch [0x10, 0x83, 0x03] []
        (fun v => if v = mmu.ChannelCompatibilityStatus 1 2 then 1 else 0)).1.2.getD 3 0 = 0x01) :=
  ⟨by decide, by decide,
    dispatch_type3_mmu_programming_response []
      (fun v => if v = mmu.ChannelCompatibilityStatus 1 2 then 1 else 0)
      (by decide) (by decide)⟩

end Vtc
